import Mathlib

/-!
Verification of the asynchronous environment-provisioning orchestrator of
`app.py` (Yamkia/webnexagent).  The Python source is shallowly embedded:
pure helpers become Lean functions, the stateful background job becomes an
explicit event trace, and every external effect (Docker API, XML-RPC,
filesystem) is an oracle supplied through a `World` structure.  Each claim
of the specification is settled by a theorem over these definitions.
-/

namespace WebNex

/-! ## History records (`env_history.json`)

A history record as written by `_create_real_environment` (lines 1474-1485),
`_create_native_environment` (lines 489-503) and `odoo_local_env_start`
(lines 1994-2003).  Python dicts with the common keys are modelled as a
structure; extra keys of the native variant do not matter for the claims. -/

/-! ## Computable string helpers

Python-string operations (`startswith`, `in`, `lower`, `split`) modelled
on the character list of a Lean `String`, so every definition below
evaluates inside the kernel. -/

/-- Python `s.startswith(p)`. -/
def strStartsWith (p s : String) : Bool := p.data.isPrefixOf s.data

def charsContains : List Char → List Char → Bool
  | [], needle => needle.isEmpty
  | c :: t, needle => needle.isPrefixOf (c :: t) || charsContains t needle

/-- Python `needle in hay` on strings. -/
def strContains (hay needle : String) : Bool := charsContains hay.data needle.data

/-- Python `s.lower()` (ASCII suffices for this repository's data). -/
def strLower (s : String) : String := String.mk (s.data.map Char.toLower)

def splitOnChar (sep : Char) : List Char → List (List Char)
  | [] => [[]]
  | c :: t =>
    match splitOnChar sep t with
    | [] => [[]]
    | s :: rest => if c = sep then [] :: s :: rest else (c :: s) :: rest

/-- Split a path string on `/`. -/
def splitSlash (p : String) : List String := (splitOnChar '/' p.data).map String.mk

structure EnvRecord where
  db_name : String
  port : Nat
  odoo_version : String
  url : String
  created_at : String
  deriving DecidableEq, Repr

/-- The persisted content of `env_history.json` as seen by
`_load_env_history`: the file can be absent, hold a JSON list, hold some
other JSON value, or fail to parse. -/
inductive HistoryFile where
  | missing
  | jsonList (l : List EnvRecord)
  | jsonOther
  | unreadable
  deriving DecidableEq

/-- `sorted(data, key=lambda x: x.get('created_at', ''), reverse=True)`:
descending, by the `created_at` string. -/
def sortByCreatedDesc (l : List EnvRecord) : List EnvRecord :=
  l.mergeSort (fun a b => decide (b.created_at ≤ a.created_at))

/-- `_load_env_history` (app.py lines 40-52).  Returns `none` exactly where
the Python function falls off the end and returns `None` (file present,
JSON parsed, but not a list). -/
def loadEnvHistory : HistoryFile → Option (List EnvRecord)
  | .missing => some []
  | .jsonList l => some (sortByCreatedDesc l)
  | .jsonOther => none
  | .unreadable => some []

/-- History insertion in `_create_real_environment` (lines 1481-1484):
drop every record matching on both `db_name` and `port`, then prepend. -/
def dockerHistoryInsert (envs : List EnvRecord) (entry : EnvRecord) : List EnvRecord :=
  entry :: envs.filter (fun e => !(e.db_name == entry.db_name && e.port == entry.port))

/-- History insertion in `_create_native_environment` (lines 500-502):
drop every record matching on `db_name` alone, then prepend. -/
def nativeHistoryInsert (envs : List EnvRecord) (entry : EnvRecord) : List EnvRecord :=
  entry :: envs.filter (fun e => !(e.db_name == entry.db_name))

/-- `_find_env` (lines 64-86): three passes over the loaded history —
exact case-insensitive `db_name` match, then startswith/contains match,
then a URL-substring match. -/
def findEnv (envs : List EnvRecord) (dbName : String) : Option EnvRecord :=
  if dbName = "" then none else
  match envs.find? (fun e => strLower e.db_name == strLower dbName) with
  | some e => some e
  | none =>
    match envs.find? (fun e =>
        strStartsWith (strLower dbName) (strLower e.db_name) ||
          strContains (strLower e.db_name) (strLower dbName)) with
    | some e => some e
    | none => envs.find? (fun e => strContains (strLower e.url) (strLower dbName))

/-- The fallback insertion in `odoo_local_env_start` (lines 2001-2002):
a bare `envs.insert(0, new_env)` with no removal of matching records. -/
def localStartFallbackInsert (envs : List EnvRecord) (entry : EnvRecord) : List EnvRecord :=
  entry :: envs

/-- The history effect of the `odoo_local_env_start` route: the fallback
record is only written when `db_name` is non-empty, `_find_env` found
nothing, and the scan of `get_odoo_env_choices()` found nothing either
(`choiceHit`); otherwise the persisted list is untouched. -/
def localStartHistory (envs : List EnvRecord) (dbName : String) (choiceHit : Bool)
    (entry : EnvRecord) : List EnvRecord :=
  if dbName ≠ "" ∧ findEnv envs dbName = none ∧ choiceHit = false then
    localStartFallbackInsert envs entry
  else envs

/-- The invariant claimed for the persisted list: at most one record per
(`db_name`, `port`) pair. -/
def DedupInv (envs : List EnvRecord) : Prop :=
  List.Pairwise (fun a b => ¬(a.db_name = b.db_name ∧ a.port = b.port)) envs

instance : DecidablePred DedupInv := fun envs =>
  List.instDecidablePairwise envs

/-! ## Subnet search (Network Allocator fallback, lines 1355-1396) -/

/-- An IPv4 network: 32-bit base address plus mask length, as produced by
`ipaddress.ip_network`. -/
structure IpNet where
  addr : Nat
  maskLen : Nat
  deriving DecidableEq, Repr

def mkIp (a b c d : Nat) (m : Nat) : IpNet :=
  ⟨((a * 256 + b) * 256 + c) * 256 + d, m⟩

/-- Number of addresses covered by the network. -/
def IpNet.size (n : IpNet) : Nat := 2 ^ (32 - n.maskLen)

/-- `ipaddress`'s `overlaps`: the two address ranges intersect. -/
def ipOverlaps (a b : IpNet) : Bool :=
  decide (a.addr < b.addr + b.size) && decide (b.addr < a.addr + a.size)

/-- Dotted-quad rendering of the base address with the mask length, as
`str(candidate_subnet)` produces. -/
def IpNet.render (n : IpNet) : String :=
  toString (n.addr / 16777216 % 256) ++ "." ++ toString (n.addr / 65536 % 256) ++ "." ++
    toString (n.addr / 256 % 256) ++ "." ++ toString (n.addr % 256) ++ "/" ++ toString n.maskLen

/-- Inner loop of the fallback search: `search_range.subnets(new_prefix=24)`
for `172.<o>.0.0/16` visits `172.<o>.<y>.0/24` for `y = 0..255` in ascending
order, stopping at the first candidate overlapping no existing subnet. -/
def scanSecondRange (existing : List IpNet) (o : Nat) : List Nat → Option IpNet
  | [] => none
  | y :: rest =>
    let candidate := mkIp 172 o y 0 24
    if existing.any (fun net => ipOverlaps candidate net) then
      scanSecondRange existing o rest
    else
      some candidate

/-- Outer loop: `for second_octet in range(17, 32)`, stopping as soon as the
inner scan found a free block. -/
def scanOctets (existing : List IpNet) : List Nat → Option IpNet
  | [] => none
  | o :: rest =>
    match scanSecondRange existing o (List.range 256) with
    | some c => some c
    | none => scanOctets existing rest

/-- The deterministic free-subnet search of `_create_real_environment`
(lines 1366-1377). -/
def findFreeSubnet (existing : List IpNet) : Option IpNet :=
  scanOctets existing (List.range' 17 15)

/-- All candidate /24 blocks in the scan order of the source: ascending
second octet 17..31, then ascending third octet 0..255. -/
def subnetCandidates : List IpNet :=
  (List.range' 17 15).flatMap (fun o => (List.range 256).map (fun y => mkIp 172 o y 0 24))

/-- A candidate is free when it overlaps none of the claimed subnets. -/
def freeOf (existing : List IpNet) (c : IpNet) : Bool :=
  !(existing.any (fun net => ipOverlaps c net))

/-- The remediation message raised when the whole range is exhausted
(lines 1391-1395 of app.py). -/
def subnetExhaustedMsg : String :=
  "Failed to find an available network subnet after multiple attempts. " ++
  "This suggests heavy Docker network usage on your system. " ++
  "Please try cleaning up unused networks with 'docker network prune' " ++
  "or inspect existing network configurations with 'docker network ls'."

/-! ## Startup module-list computation (lines 1295-1319) -/

def brandTheme : String := "deployable_brand_theme"

/-- Lines 1304-1311 (under `local_brand_present`): insert `website` at
the front when absent, then strip `deployable_brand_theme` from the
first-boot list (the "deferral"). -/
def brandAdjustModules (modules0 : List String) : List String :=
  let m1 := if modules0.contains "website" then modules0 else "website" :: modules0
  if m1.contains brandTheme then m1.filter (fun m => m != brandTheme) else m1

/-- Lines 1300-1303: default `branding_modules` to `[]` and append
`deployable_brand_theme` when missing. -/
def brandAdjustBranding (brandingMods0 : Option (List String)) : List String :=
  let bm0 := brandingMods0.getD []
  if bm0.contains brandTheme then bm0 else bm0 ++ [brandTheme]

/-- Lines 1313-1315: append a truthy `website_design` not yet listed. -/
def websiteDesignStep (modules : List String) : Option String → List String
  | some wd => if wd ≠ "" ∧ modules.contains wd = false then modules ++ [wd] else modules
  | none => modules

/-- Lines 1317-1319: extend `modules` with the branding modules not yet
listed (a no-op for `None` or `[]`). -/
def brandingMergeStep (modules : List String) : Option (List String) → List String
  | some bm => if bm ≠ [] then modules ++ bm.filter (fun b => !(modules.contains b)) else modules
  | none => modules

/-- The module/branding-list rewriting performed at the top of
`_create_real_environment` before the Odoo command is built:
brand-theme detection (lines 1298-1311), the `website_design` append
(lines 1314-1315) and the branding-module merge (lines 1318-1319).
Returns the final `modules` list and the final `branding_modules` value. -/
def computeStartupModules (modules0 : List String) (websiteDesign : Option String)
    (brandingMods0 : Option (List String)) (localPresent : Bool) :
    List String × Option (List String) :=
  let step1 :=
    if localPresent then (brandAdjustModules modules0, some (brandAdjustBranding brandingMods0))
    else (modules0, brandingMods0)
  (brandingMergeStep (websiteDesignStep step1.1 websiteDesign) step1.2, step1.2)

/-- The Odoo startup command string (lines 1422-1433): database flag,
`--init` with the comma-joined module list when non-empty, and the
addons path when extension directories are mounted. -/
def odooCommand (dbName : String) (modules : List String)
    (extraAddons localPresent : Bool) : String :=
  let moduleString := String.intercalate "," modules
  let c1 := "--database=" ++ dbName
  let c2 := if moduleString ≠ "" then c1 ++ " --init=" ++ moduleString else c1
  if extraAddons || localPresent then
    c2 ++ " --addons-path=/mnt/extra-addons,/usr/lib/python3/dist-packages/odoo/addons"
  else c2

/-! ## Job store and HTTP endpoints -/

inductive JobStatus where
  | pending
  | running
  | completed
  | failed
  deriving DecidableEq, Repr

def JobStatus.render : JobStatus → String
  | .pending => "pending"
  | .running => "running"
  | .completed => "completed"
  | .failed => "failed"

structure Job where
  status : JobStatus
  log : List String
  url : Option String
  deriving DecidableEq, Repr

/-- The module-level `JOBS` dict, keyed by job id. -/
abbrev JobStore := List (String × Job)

/-- Outcome of the `/odoo/execute` route: HTTP code, optional issued job
id, the job store afterwards, and whether a background worker thread was
spawned (the only backend interaction of the route). -/
structure ExecOutcome where
  httpCode : Nat
  jobId : Option String
  errMsg : Option String
  store : JobStore
  spawned : Bool
  deriving DecidableEq, Repr

/-- `odoo_execute` (lines 1862-1884).  `modules = data.get('modules')` is
`none` when absent; `if not modules` rejects both `None` and the empty
list with a 400 before a job id is generated. -/
def odooExecute (store : JobStore) (freshId : String)
    (modules : Option (List String)) : ExecOutcome :=
  if modules.getD [] = [] then
    { httpCode := 400, jobId := none,
      errMsg := some "No modules provided for execution.",
      store := store, spawned := false }
  else
    { httpCode := 200, jobId := some freshId, errMsg := none,
      store := store ++ [(freshId,
        { status := .pending,
          log := ["Request to create environment received."],
          url := none })],
      spawned := true }

/-- Response of the `/odoo/job_status/<job_id>` route: HTTP code, the
`status` field, and the job's log and url when present (the found branch
returns `jsonify(job)`, i.e. all three job fields). -/
structure StatusResp where
  httpCode : Nat
  statusField : String
  log : Option (List String)
  url : Option (Option String)
  deriving DecidableEq, Repr

/-- `odoo_job_status` (lines 1886-1892): `JOBS.get(job_id)`; unknown ids
give `{'status': 'not_found'}` with a 404, known ids the job itself. -/
def odooJobStatus (store : JobStore) (jobId : String) : StatusResp :=
  match store.lookup jobId with
  | none => { httpCode := 404, statusField := "not_found", log := none, url := none }
  | some job =>
    { httpCode := 200, statusField := job.status.render,
      log := some job.log, url := some job.url }

/-! ## Project-path resolution (lines 30-35) and the CSS-inject route -/

/-- One pass of `os.path.normpath` segment processing for an absolute
POSIX path: empty and `.` segments vanish, `..` pops the previous
segment (and is dropped at the root). -/
def normSegments (segs : List String) : List String :=
  segs.foldl
    (fun stack seg =>
      if seg = "" ∨ seg = "." then stack
      else if seg = ".." then stack.dropLast
      else stack ++ [seg])
    []

/-- `os.path.normpath` for an absolute POSIX path. -/
def normPathAbs (p : String) : String :=
  "/" ++ String.intercalate "/" (normSegments (splitSlash p))

/-- `os.path.join(root, rel)`: an absolute second argument replaces the
first, otherwise the parts are joined with a separator. -/
def osPathJoin (root rel : String) : String :=
  if strStartsWith "/" rel then rel else root ++ "/" ++ rel

/-- `_resolve_project_path` (lines 30-35): normalize the joined path and
accept it when the resulting string *starts with* the project root. -/
def resolveProjectPath (root rel : String) : Except String String :=
  let normalized := normPathAbs (osPathJoin root rel)
  if strStartsWith root normalized then Except.ok normalized
  else Except.error "Target path must stay within the project directory"

/-- A path truly inside the project root directory: the root itself or a
path below it. -/
def withinRoot (root p : String) : Prop :=
  p = root ∨ strStartsWith (root ++ "/") p = true

instance (root p : String) : Decidable (withinRoot root p) := by
  unfold withinRoot
  infer_instance

/-- The write target chosen by `website_helper_inject` (lines 1243-1246):
a `ValueError` becomes a 400 client error, otherwise the endpoint writes
the CSS to the resolved path. -/
def websiteHelperInjectTarget (root rel : String) : Except Nat String :=
  match resolveProjectPath root rel with
  | Except.error _ => Except.error 400
  | Except.ok p => Except.ok p

/-! ## Event-trace embedding of `_create_real_environment` (lines 1263-1679)

The background worker mutates its `JOBS` entry (status, log, url), sleeps,
and drives Docker / XML-RPC.  Its execution is embedded as a function from
an oracle `World` (the outcome of every external call) to the list of
events it performs, in order.  The garbled emoji prefixes of some source
log lines are dropped; the readable text is kept verbatim. -/

inductive Ev where
  | setStatus (s : JobStatus)
  | logLine (m : String)
  | setUrl (u : String)
  | sleep (secs : Nat)
  | mgmt (method : String) (arg : String)
  | execCmd (c : String)
  deriving DecidableEq, Repr

abbrev Trace := List Ev

/-- Outcome of one clone attempt in the branding-repo preparation loop. -/
inductive CloneRes where
  | present
  | cloned
  | failed (msg : String)
  deriving DecidableEq

/-- Outcome of `client.networks.create(network_name, driver="bridge")`:
success, or a `docker.errors.APIError` carrying its message. -/
inductive NetCreateOutcome where
  | ok
  | apiError (msg : String)
  deriving DecidableEq

/-- Oracles for the XML-RPC management surface used by the post-start
extension-installation phase. -/
structure RpcWorld where
  /-- 0-based index of the first of the 40 `common.version()` polls that
  succeeds; `none` if none does. -/
  readyAt : Option Nat
  /-- `common.authenticate`: an exception, or a uid (`0` models a falsy
  uid, i.e. failed login). -/
  auth : Except String Nat
  /-- Outcome of `update_list` at attempt `n` (1-based). -/
  updateList : Nat → Except String Unit
  /-- `ir.module.module.search([['name','=',mod]])`. -/
  searchMod : String → Except String (List Nat)
  /-- The `state` field from reading the found module ids; `ok none`
  models an empty `mod_info`. -/
  readState : String → Except String (Option String)
  /-- Outcome of `button_immediate_install` for a module at attempt `n`. -/
  installMod : String → Nat → Except String Unit
  /-- `deployable.brand.apply_theme`. -/
  applyTheme : Except String Unit
  /-- The `docker cp` fallback copy. -/
  copyCmd : Except String Unit
  /-- `update_list` issued right after the fallback copy. -/
  copyUpdateList : Except String Unit
  /-- Module-id search after the fallback copy. -/
  copySearch : Except String (List Nat)
  /-- Module directories discovered by walking the mounted addons for
  `__manifest__.py` markers. -/
  detected : List String

/-- All external state and call outcomes the worker can observe. -/
structure World where
  dockerLoaded : Bool
  pingOk : Bool
  pingErr : String
  /-- Result of the default `networks.create`. -/
  netCreate : NetCreateOutcome
  /-- Subnets claimed by existing networks (their IPAM configs). -/
  existingSubnets : List IpNet
  /-- `some msg` iff the subnet search itself raises (lines 1379-1381). -/
  scanErr : Option String
  /-- Result of `networks.create` with the explicit IPAM pool. -/
  customNetCreate : Except String Unit
  /-- `containers.run` for postgres: container short id or exception. -/
  dbRun : Except String String
  /-- `containers.run` for Odoo: container short id or exception. -/
  odooRun : Except String String
  /-- `reload()` plus the `8069/tcp` host-port lookup. -/
  hostPort : Except String Nat
  /-- The history read/insert/save block (lines 1472-1488). -/
  historyOk : Except String Unit
  /-- The `makedirs` setup of the branding-repo staging dir. -/
  clonePrep : Except String Unit
  /-- Per-repo clone outcome. -/
  cloneRepo : String → CloneRes
  /-- `deployable_brand_theme` directory with a manifest exists locally. -/
  localBrandPresent : Bool
  /-- Enumeration of job-prefixed resources during cleanup: container
  display strings and network names, or the exception raised by the
  enumeration (a failure mid-loop is modelled at the first call). -/
  cleanup : Except String (List String × List String)
  projectRoot : String
  dbPassword : String
  masterPassword : String
  rpc : RpcWorld

/-- Arguments of `_create_real_environment`. -/
structure Params where
  jobId : String
  modules : List String
  websiteDesign : Option String
  odooVersion : String
  brandingMods : Option (List String)
  brandingRepos : List String

def take8 (s : String) : String := String.mk (s.data.take 8)

def namePfx (p : Params) : String := "odoo-" ++ take8 p.jobId

def networkName (p : Params) : String := namePfx p ++ "-net"

def dbNameOf (p : Params) : String := "odoo-" ++ take8 p.jobId ++ "-db"

def dockerLoadErr : String :=
  "The 'docker' Python package is not installed. Please run 'pip install docker' in your terminal."

/-- `os.path.splitext(os.path.basename(repo))[0]`. -/
def repoBaseName (repo : String) : String :=
  let base := ((splitSlash repo).getLastD "")
  match (splitOnChar '.' base.data).reverse with
  | [] => base
  | [_] => base
  | _ :: rest => String.mk (String.intercalate "." (rest.reverse.map String.mk)).data

/-- Branding-repo preparation (lines 1270-1293).  Returns the log events
and whether `extra_addons_dir` ends up set (it stays set even when an
individual clone fails; it is reset to `None` only by the outer except). -/
def cloneReposPhase (w : World) (p : Params) : Trace × Bool :=
  if p.brandingRepos = [] then ([], false)
  else
    let t0 := [Ev.logLine ("Preparing branding repos (" ++ toString p.brandingRepos.length ++ ")...")]
    match w.clonePrep with
    | Except.error e => (t0 ++ [Ev.logLine ("Error preparing branding repos: " ++ e)], false)
    | Except.ok _ =>
      (t0 ++ p.brandingRepos.flatMap (fun repo =>
        match w.cloneRepo repo with
        | CloneRes.present => [Ev.logLine ("Branding repo already present: " ++ repoBaseName repo)]
        | CloneRes.cloned =>
          [Ev.logLine ("Cloning branding repo: " ++ repo),
           Ev.logLine ("Cloned " ++ repoBaseName repo)]
        | CloneRes.failed msg =>
          [Ev.logLine ("Cloning branding repo: " ++ repo),
           Ev.logLine ("Warning: failed to clone " ++ repo ++ ": " ++ msg)]), true)

/-- Log lines of the brand-theme detection block (lines 1295-1311); the
list rewriting itself is `computeStartupModules`. -/
def brandDetectTrace (w : World) (p : Params) : Trace :=
  if w.localBrandPresent then
    let m1 := if p.modules.contains "website" then p.modules else "website" :: p.modules
    [Ev.logLine "Detected local module 'deployable_brand_theme'; it will be mounted into the Odoo container."]
    ++ (if p.modules.contains "website" then []
        else [Ev.logLine "Added 'website' module as dependency for brand theme."])
    ++ (if m1.contains brandTheme then
          [Ev.logLine "Deferring 'deployable_brand_theme' installation to post-start phase."]
        else [])
  else []

/-- Network allocation (lines 1349-1398): default creation, then on the
"fully subnetted" `APIError` the deterministic fallback search; any other
`APIError` is re-raised, and an exception during the search is logged
(and, finding nothing, the descriptive exhaustion error is raised). -/
def netPhase (w : World) (p : Params) : Trace × Except String Unit :=
  let t0 := [Ev.logLine ("Creating Docker network: " ++ networkName p)]
  match w.netCreate with
  | NetCreateOutcome.ok => (t0, Except.ok ())
  | NetCreateOutcome.apiError msg =>
    if strContains msg "fully subnetted" then
      let t1 := t0 ++ [Ev.logLine "Default network pool exhausted. Attempting to create network with a custom subnet..."]
      match w.scanErr with
      | some ferr =>
        (t1 ++ [Ev.logLine ("An unexpected error occurred while searching for a subnet: " ++ ferr)],
         Except.error subnetExhaustedMsg)
      | none =>
        match findFreeSubnet w.existingSubnets with
        | some c =>
          let t2 := t1 ++ [Ev.logLine ("Found non-overlapping subnet: " ++ c.render)]
          match w.customNetCreate with
          | Except.ok _ =>
            (t2 ++ [Ev.logLine ("Successfully created network with custom subnet (" ++ c.render ++ ").")],
             Except.ok ())
          | Except.error e => (t2, Except.error e)
        | none => (t1, Except.error subnetExhaustedMsg)
    else (t0, Except.error msg)

/-- Postgres provisioning (lines 1401-1418). -/
def dbPhase (w : World) : Trace × Except String Unit :=
  let t0 := [Ev.logLine "Provisioning PostgreSQL database container (postgres:15)..."]
  match w.dbRun with
  | Except.error e => (t0, Except.error e)
  | Except.ok cid =>
    (t0 ++ [Ev.logLine ("Database container '" ++ cid ++ "' started."),
            Ev.logLine "Database user: 'odoo'",
            Ev.logLine ("Database password: " ++ w.dbPassword),
            Ev.logLine "Waiting for database to initialize...",
            Ev.sleep 10],
     Except.ok ())

/-- Odoo provisioning (lines 1420-1466): start the workload container,
settle-wait, then re-query the dynamically assigned host port. -/
def odooPhase (w : World) (p : Params) : Trace × Except String Nat :=
  let t0 := [Ev.logLine ("Provisioning Odoo container (odoo:" ++ p.odooVersion ++ ")...")]
  match w.odooRun with
  | Except.error e => (t0, Except.error e)
  | Except.ok cid =>
    let t1 := t0 ++
      [Ev.logLine ("Odoo container '" ++ cid ++ "' started."),
       Ev.logLine ("Odoo master password set to: " ++ w.masterPassword ++ " (for database management)."),
       Ev.logLine "Waiting for Odoo to initialize (this may take a few minutes)...",
       Ev.sleep 45]
    match w.hostPort with
    | Except.error e => (t1, Except.error e)
    | Except.ok port => (t1, Except.ok port)

/-- The history-record block (lines 1471-1488), whose list effect is
`dockerHistoryInsert`; any failure is caught and logged. -/
def historyPhase (w : World) (p : Params) : Trace :=
  match w.historyOk with
  | Except.ok _ => [Ev.logLine ("Recorded environment '" ++ dbNameOf p ++ "' in history.")]
  | Except.error e => [Ev.logLine ("Failed to record environment history: " ++ e)]

def loginTrace : Trace :=
  [Ev.logLine "--- Odoo Application Login ---",
   Ev.logLine "Email: admin",
   Ev.logLine "Password: admin",
   Ev.logLine "(It is recommended to change this password after your first login.)",
   Ev.logLine "------------------------------"]

/-! ### Post-start extension installation (lines 1499-1649) -/

/-- The lock-retry log line, e.g. `Module list update locked by scheduled
action. Retrying in 10s (attempt 2/5)...`. -/
def lockRetryLog (what : String) (attempt : Nat) : String :=
  what ++ " locked by scheduled action. Retrying in " ++ toString (attempt * 5) ++
    "s (attempt " ++ toString attempt ++ "/5)..."

/-- One of the two inline retry loops (lines 1534-1546 and 1563-1575):
`for attempt in range(1, 6)`, retrying — after a wait of `attempt*5`
seconds — exactly when the raised message contains `Invalid Operation`
and the attempt cap is not reached; any other failure (and exhaustion of
the cap) re-raises.  `fuel` counts the remaining loop iterations; a
fall-through of the `for` (impossible from the initial call) continues
normally. -/
def retryRpc (out : Nat → Except String Unit) (method arg : String) (okTrace : Trace)
    (what : String) : Nat → Nat → Trace × Except String Unit
  | _, 0 => ([], Except.ok ())
  | attempt, fuel + 1 =>
    match out attempt with
    | Except.ok _ => ([Ev.mgmt method arg] ++ okTrace, Except.ok ())
    | Except.error m =>
      if strContains m "Invalid Operation" && decide (attempt < 5) then
        let rest := retryRpc out method arg okTrace what (attempt + 1) fuel
        ([Ev.mgmt method arg, Ev.logLine (lockRetryLog what attempt), Ev.sleep (attempt * 5)]
          ++ rest.1, rest.2)
      else ([Ev.mgmt method arg], Except.error m)

/-- The `update_list` refresh with its surrounding try (lines 1530-1549):
a failure that survives the retry loop is logged and the flow continues. -/
def updateListBlock (w : World) : Trace :=
  match retryRpc w.rpc.updateList "update_list" ""
      [Ev.logLine "Module list updated successfully."] "Module list update" 1 5 with
  | (t, Except.ok _) =>
    [Ev.logLine "Updating Odoo module list to discover mounted addons..."] ++ t ++ [Ev.sleep 3]
  | (t, Except.error e) =>
    [Ev.logLine "Updating Odoo module list to discover mounted addons..."] ++ t ++
      [Ev.logLine ("Module list update failed: " ++ e)]

def renderNatList (l : List Nat) : String :=
  "[" ++ String.intercalate ", " (l.map toString) ++ "]"

def renderStrList (l : List String) : String :=
  "[" ++ String.intercalate ", " (l.map (fun s => "'" ++ s ++ "'")) ++ "]"

/-- The fallback `docker cp` block for a missing `deployable_brand_theme`
(lines 1581-1599); every failure inside is caught and logged. -/
def fallbackCopyTrace (w : World) (mod : String) : Trace :=
  if w.localBrandPresent ∧ mod = brandTheme then
    [Ev.logLine ("Fallback: copying local module '" ++ w.projectRoot ++ "/deployable_brand_theme" ++
       "' into container system addons"),
     Ev.execCmd "docker cp"]
    ++ match w.rpc.copyCmd with
       | Except.error e => [Ev.logLine ("Fallback copy failed: " ++ e)]
       | Except.ok _ =>
         [Ev.logLine "Fallback copy completed. Updating module list...",
          Ev.mgmt "update_list" ""]
         ++ match w.rpc.copyUpdateList with
            | Except.error e => [Ev.logLine ("Fallback copy failed: " ++ e)]
            | Except.ok _ =>
              [Ev.sleep 2, Ev.mgmt "search" mod]
              ++ match w.rpc.copySearch with
                 | Except.error e => [Ev.logLine ("Fallback copy failed: " ++ e)]
                 | Except.ok [] =>
                   [Ev.logLine ("Fallback: module " ++ mod ++ " still not found after copying.")]
                 | Except.ok (i :: is) =>
                   [Ev.logLine ("Fallback: module " ++ mod ++ " discovered after copying (mids=" ++
                      renderNatList (i :: is) ++ ").")]
  else []

/-- Installation of one explicitly requested branding module
(lines 1555-1601): search, state check, and — only for an `uninstalled`
module — the install call under the lock-retry policy; every failure is
caught per-module and logged. -/
def installBrandingModule (w : World) (mod : String) : Trace :=
  match w.rpc.searchMod mod with
  | Except.error e =>
    [Ev.mgmt "search" mod, Ev.logLine ("Error installing branding module " ++ mod ++ ": " ++ e)]
  | Except.ok [] =>
    [Ev.mgmt "search" mod,
     Ev.logLine ("Module " ++ mod ++ " not found in Odoo. Check module name and addons path.")]
    ++ fallbackCopyTrace w mod
  | Except.ok (_ :: _) =>
    match w.rpc.readState mod with
    | Except.error e =>
      [Ev.mgmt "search" mod, Ev.mgmt "read" mod,
       Ev.logLine ("Error installing branding module " ++ mod ++ ": " ++ e)]
    | Except.ok st =>
      if st = some "uninstalled" then
        match retryRpc (w.rpc.installMod mod) "button_immediate_install" mod
            [Ev.logLine ("Module " ++ mod ++ " installation triggered.")] "Module install" 1 5 with
        | (t, Except.ok _) => [Ev.mgmt "search" mod, Ev.mgmt "read" mod] ++ t
        | (t, Except.error e) =>
          [Ev.mgmt "search" mod, Ev.mgmt "read" mod] ++ t
          ++ [Ev.logLine ("Error installing branding module " ++ mod ++ ": " ++ e)]
      else
        [Ev.mgmt "search" mod, Ev.mgmt "read" mod,
         Ev.logLine ("Module " ++ mod ++ " already installed or in progress (state: " ++
           (match st with | some s => s | none => "unknown") ++ ").")]

/-- The best-effort `apply_theme` call after the branding installs
(lines 1602-1608). -/
def applyThemeTrace (w : World) : Trace :=
  [Ev.logLine "Attempting to apply branding theme via deployable.brand.apply_theme...",
   Ev.mgmt "apply_theme" ""]
  ++ match w.rpc.applyTheme with
     | Except.ok _ => [Ev.logLine "deployable.brand.apply_theme invoked"]
     | Except.error e => [Ev.logLine ("Warning: apply_theme call failed: " ++ e)]

/-- Installation of one auto-detected module (lines 1628-1641): the same
search and state gating, but a single `button_immediate_install` call
with no retry loop; failures are caught per-module and logged. -/
def autoInstallModule (w : World) (moduleName : String) : Trace :=
  match w.rpc.searchMod moduleName with
  | Except.error e =>
    [Ev.mgmt "search" moduleName,
     Ev.logLine ("Auto-install error for " ++ moduleName ++ ": " ++ e)]
  | Except.ok [] =>
    [Ev.mgmt "search" moduleName,
     Ev.logLine ("Module " ++ moduleName ++ " not found after update_list. Check addons path.")]
  | Except.ok (_ :: _) =>
    match w.rpc.readState moduleName with
    | Except.error e =>
      [Ev.mgmt "search" moduleName, Ev.mgmt "read" moduleName,
       Ev.logLine ("Auto-install error for " ++ moduleName ++ ": " ++ e)]
    | Except.ok st =>
      if st = some "uninstalled" then
        [Ev.mgmt "search" moduleName, Ev.mgmt "read" moduleName,
         Ev.mgmt "button_immediate_install" moduleName]
        ++ match w.rpc.installMod moduleName 1 with
           | Except.ok _ => [Ev.logLine ("Auto-install triggered for module: " ++ moduleName)]
           | Except.error e => [Ev.logLine ("Auto-install error for " ++ moduleName ++ ": " ++ e)]
      else
        [Ev.mgmt "search" moduleName, Ev.mgmt "read" moduleName,
         Ev.logLine ("Module " ++ moduleName ++ " state: " ++
           (match st with | some s => s | none => "unknown"))]

/-- The auto-detect branch taken when no branding modules were specified
(lines 1609-1645). -/
def autoDetectBlock (w : World) : Trace :=
  [Ev.logLine "Auto-detecting modules in mounted addons..."]
  ++ (match w.rpc.detected with
      | [] => [Ev.logLine "No modules detected for auto-install."]
      | d :: ds =>
        [Ev.logLine ("Found modules to install: " ++ renderStrList (d :: ds))]
        ++ (d :: ds).flatMap (autoInstallModule w))

/-- The XML-RPC readiness poll (lines 1513-1521): up to 40 probes of
`common.version()`, sleeping 2s after each failure. -/
def readyLoopTrace (readyAt : Option Nat) : Trace × Bool :=
  match readyAt with
  | some k =>
    if k < 40 then
      ((List.range k).flatMap (fun _ => [Ev.mgmt "version" "", Ev.sleep 2]) ++ [Ev.mgmt "version" ""],
       true)
    else ((List.range 40).flatMap (fun _ => [Ev.mgmt "version" "", Ev.sleep 2]), false)
  | none => ((List.range 40).flatMap (fun _ => [Ev.mgmt "version" "", Ev.sleep 2]), false)

/-- The whole post-start phase (lines 1499-1649), entered only when
extension directories are mounted.  Connect, authenticate, refresh the
registry, then install either the explicit branding modules or the
auto-detected ones; every sub-step catches and logs its own failures, so
the phase emits log lines but never an exception or a status change. -/
def brandingPhase (w : World) (brandingMods : Option (List String)) (extraAddons : Bool) :
    Trace :=
  if extraAddons || w.localBrandPresent then
    let ready := readyLoopTrace w.rpc.readyAt
    [Ev.logLine "Adjusting ownership for extra addons and attempting theme install...",
     Ev.execCmd "chown"]
    ++ ready.1
    ++ (if ready.2 then
          [Ev.mgmt "authenticate" ""]
          ++ (match w.rpc.auth with
              | Except.error e =>
                [Ev.logLine ("Branding install authentication error: " ++ e)]
              | Except.ok uid =>
                if uid = 0 then
                  [Ev.logLine "Branding install: failed to authenticate to Odoo XML-RPC (admin)."]
                else
                  updateListBlock w
                  ++ (match brandingMods with
                      | some (b :: bs) =>
                        [Ev.logLine ("Installing specified branding modules: " ++ renderStrList (b :: bs))]
                        ++ (b :: bs).flatMap (installBrandingModule w)
                        ++ applyThemeTrace w
                      | _ => autoDetectBlock w))
        else [Ev.logLine "Branding install: Odoo did not respond to XML-RPC in time."])
  else []

/-! ### Failure handler and the whole worker -/

/-- Prefix-based cleanup (lines 1663-1679): force-remove every container
and network carrying the job prefix, logging each; a failure during
cleanup is itself caught and logged. -/
def cleanupTrace (w : World) : Trace :=
  match w.cleanup with
  | Except.ok r =>
    r.1.map (fun c => Ev.logLine ("Removing container: " ++ c))
    ++ r.2.map (fun n => Ev.logLine ("Removing network: " ++ n))
    ++ [Ev.logLine "Cleanup complete."]
  | Except.error e =>
    [Ev.logLine ("An error occurred during cleanup: " ++ e),
     Ev.logLine "Some Docker resources may need to be removed manually."]

/-- The top-level exception handler (lines 1651-1679): explain the error,
mark the job failed, then clean up. -/
def exceptTrace (w : World) (e : String) : Trace :=
  (if strContains e "fully subnetted" then
     [Ev.logLine "Docker Error: Docker has run out of network address pools.",
      Ev.logLine "This is a common issue that can be resolved by cleaning up unused Docker networks.",
      Ev.logLine "Please run the following command in your terminal and then try again:",
      Ev.logLine "-> docker network prune"]
   else [Ev.logLine ("An unexpected error occurred: " ++ e)])
  ++ [Ev.setStatus JobStatus.failed,
      Ev.logLine "Attempting to clean up created resources..."]
  ++ cleanupTrace w

/-- The body of the big `try` (lines 1344-1649) plus its handler: network,
database, workload, history, terminal status, then the best-effort
post-start phase. -/
def mainTryTrace (w : World) (p : Params) (brandingMods : Option (List String))
    (extraAddons : Bool) : Trace :=
  let pre := [Ev.logLine "Starting environment creation...",
              Ev.setStatus JobStatus.running, Ev.sleep 1]
  match netPhase w p with
  | (t1, Except.error e) => pre ++ t1 ++ exceptTrace w e
  | (t1, Except.ok _) =>
    let afterNet := pre ++ t1 ++ [Ev.sleep 1]
    match dbPhase w with
    | (t2, Except.error e) => afterNet ++ t2 ++ exceptTrace w e
    | (t2, Except.ok _) =>
      match odooPhase w p with
      | (t3, Except.error e) => afterNet ++ t2 ++ t3 ++ exceptTrace w e
      | (t3, Except.ok port) =>
        let url := "http://localhost:" ++ toString port
        afterNet ++ t2 ++ t3
        ++ [Ev.logLine ("Environment created successfully! Access it at: " ++ url)]
        ++ historyPhase w p
        ++ loginTrace
        ++ [Ev.setStatus JobStatus.completed, Ev.setUrl url]
        ++ brandingPhase w brandingMods extraAddons

/-- The complete background worker `_create_real_environment`: branding
repo preparation, local-module detection and module-list rewriting, the
Docker availability checks, then the guarded main flow. -/
def runCreateRealEnvironment (w : World) (p : Params) : Trace :=
  let clone := cloneReposPhase w p
  let startup := computeStartupModules p.modules p.websiteDesign p.brandingMods w.localBrandPresent
  clone.1 ++ brandDetectTrace w p
  ++ (if !w.dockerLoaded then
        [Ev.logLine ("Configuration Error: " ++ dockerLoadErr),
         Ev.setStatus JobStatus.failed]
      else if !w.pingOk then
        [Ev.logLine "Docker Error: Could not connect to Docker daemon.",
         Ev.logLine "Please ensure Docker Desktop is installed and running.",
         Ev.logLine ("Details: " ++ w.pingErr),
         Ev.setStatus JobStatus.failed]
      else mainTryTrace w p startup.2 clone.2)

/-! ### Trace observations -/

def Ev.isSetStatus : Ev → Bool
  | Ev.setStatus _ => true
  | _ => false

/-- Events that mutate the `JOBS` entry: status writes, log appends and
the url write. -/
def Ev.isJobMutation : Ev → Bool
  | Ev.setStatus _ => true
  | Ev.logLine _ => true
  | Ev.setUrl _ => true
  | _ => false

def Ev.isTerminalSet : Ev → Bool
  | Ev.setStatus JobStatus.completed => true
  | Ev.setStatus JobStatus.failed => true
  | _ => false

def statusEvents (t : Trace) : Trace := t.filter Ev.isSetStatus

def jobMutations (t : Trace) : Trace := t.filter Ev.isJobMutation

/-- The sub-trace strictly after the first terminal status write. -/
def afterFirstTerminal (t : Trace) : Trace :=
  (t.dropWhile (fun e => !e.isTerminalSet)).drop 1

/-- The job's status after the trace has been applied (last write wins). -/
def finalStatus (t : Trace) : Option JobStatus :=
  t.foldl (fun acc e => match e with | Ev.setStatus s => some s | _ => acc) none

def countMgmt (method arg : String) (t : Trace) : Nat :=
  t.countP (fun e => e == Ev.mgmt method arg)

/-- No event of the trace writes the job status. -/
def StatusFree (t : Trace) : Prop := ∀ s : JobStatus, Ev.setStatus s ∉ t

/-- No event of the trace writes a terminal job status. -/
def TerminalFree (t : Trace) : Prop :=
  Ev.setStatus JobStatus.completed ∉ t ∧ Ev.setStatus JobStatus.failed ∉ t

def sleepsOf (t : Trace) : List Nat :=
  t.filterMap (fun e => match e with | Ev.sleep n => some n | _ => none)

/-! ## Concrete fixtures used by witnesses and counterexamples -/

/-- Management-surface oracle in which every call succeeds. -/
def rpcAllOk : RpcWorld :=
  { readyAt := some 0, auth := Except.ok 2, updateList := fun _ => Except.ok (),
    searchMod := fun _ => Except.ok [1], readState := fun _ => Except.ok (some "uninstalled"),
    installMod := fun _ _ => Except.ok (), applyTheme := Except.ok (),
    copyCmd := Except.ok (), copyUpdateList := Except.ok (), copySearch := Except.ok [1],
    detected := [] }

/-- A world in which every external call succeeds. -/
def wAllOk : World :=
  { dockerLoaded := true, pingOk := true, pingErr := "",
    netCreate := NetCreateOutcome.ok, existingSubnets := [], scanErr := none,
    customNetCreate := Except.ok (), dbRun := Except.ok "db01", odooRun := Except.ok "od01",
    hostPort := Except.ok 49153, historyOk := Except.ok (), clonePrep := Except.ok (),
    cloneRepo := fun _ => CloneRes.cloned, localBrandPresent := false,
    cleanup := Except.ok (["odoo-abcdef01-db (1a2b3c)"], ["odoo-abcdef01-net"]),
    projectRoot := "/srv/webnexagent", dbPassword := "c0ffee00d00d", masterPassword := "deadbeef0101",
    rpc := rpcAllOk }

def pPlain : Params :=
  { jobId := "abcdef0123456789", modules := ["base"], websiteDesign := none,
    odooVersion := "19.0", brandingMods := none, brandingRepos := [] }

/-- A world whose default network creation raises a non-pool `APIError`. -/
def wNetFail : World := { wAllOk with netCreate := NetCreateOutcome.apiError "boom" }

/-- A lock-condition error message as Odoo raises it. -/
def lockErrMsg : String := "odoo.exceptions.ValidationError: Invalid Operation"

/-- Management oracle for the auto-detect branch: one discovered module
whose installation always fails with the lock condition. -/
def rpcAutoLock : RpcWorld :=
  { rpcAllOk with
    detected := ["brand_mod"],
    installMod := fun _ _ => Except.error lockErrMsg }

def wAutoLock : World := { wAllOk with rpc := rpcAutoLock }

/-- Params that mount a cloned extension repo but request no explicit
branding modules, steering the post-start phase into auto-detection. -/
def pAutoRepo : Params := { pPlain with brandingRepos := ["https://example.com/repos/brand.git"] }

/-- Management oracle for the explicit-branding branch with the same
always-lock installation failure. -/
def rpcBrandLock : RpcWorld := { rpcAutoLock with detected := [] }

def wBrandLock : World := { wAllOk with rpc := rpcBrandLock }

def pBrandMods : Params := { pAutoRepo with brandingMods := some ["brand_mod"] }

/-- The claimed subnets of Scenario B. -/
def scenBSubnets : List IpNet := [mkIp 172 17 0 0 24, mkIp 172 17 1 0 24, mkIp 172 18 5 0 24]

/-- A single claimed subnet covering the entire scanned range
`172.17.0.0` – `172.31.255.255`, exhausting every candidate. -/
def coverAllSubnets : List IpNet := [mkIp 172 16 0 0 12]

/-- A world in the pool-exhaustion condition whose fallback search also
finds nothing. -/
def wExhausted : World :=
  { wAllOk with
    netCreate := NetCreateOutcome.apiError "could not find an available, non-overlapping IPv4 address pool: all predefined address pools have been fully subnetted",
    existingSubnets := coverAllSubnets }

/-- History fixtures: two records sharing an identity on different ports,
and a replacement for the first. -/
def recAlpha1 : EnvRecord :=
  { db_name := "alpha", port := 8070, odoo_version := "19.0",
    url := "http://localhost:8070", created_at := "2026-01-01T00:00:00Z" }

def recAlpha2 : EnvRecord :=
  { db_name := "alpha", port := 8071, odoo_version := "19.0",
    url := "http://localhost:8071", created_at := "2026-01-02T00:00:00Z" }

def recAlpha1New : EnvRecord :=
  { db_name := "alpha", port := 8070, odoo_version := "19.0",
    url := "http://localhost:8070", created_at := "2026-02-01T00:00:00Z" }

def recBeta : EnvRecord :=
  { db_name := "beta", port := 8090, odoo_version := "19.0",
    url := "http://localhost:8090", created_at := "2026-01-03T00:00:00Z" }

def jobRunning : Job :=
  { status := JobStatus.running, log := ["Request to create environment received."], url := none }

/-! ## Theorems -/

theorem memOfContains {a : String} {l : List String} (h : l.contains a = true) : a ∈ l := by
  simpa [List.contains, List.elem_iff] using h

theorem memAppendFilterNotContains {a : String} (m2 bm : List String) (hmem : a ∈ bm) :
    a ∈ m2 ++ bm.filter (fun b => !(m2.contains b)) := by
  by_cases h : m2.contains a
  · exact List.mem_append_left _ (memOfContains h)
  · refine List.mem_append_right _ ?_
    rw [List.mem_filter]
    refine ⟨hmem, ?_⟩
    cases hc : m2.contains a with
    | false => rfl
    | true => exact absurd hc h

theorem statusFree_append {a b : Trace} (ha : StatusFree a) (hb : StatusFree b) :
    StatusFree (a ++ b) := by
  intro s hs
  rcases List.mem_append.mp hs with h | h
  exacts [ha s h, hb s h]

theorem statusFree_flatMap {α : Type} {f : α → Trace} (l : List α)
    (hf : ∀ a, StatusFree (f a)) : StatusFree (l.flatMap f) := by
  intro s hs
  rcases List.mem_flatMap.mp hs with ⟨a, _, hsa⟩
  exact hf a s hsa

theorem terminalFree_of_statusFree {t : Trace} (h : StatusFree t) : TerminalFree t :=
  ⟨h JobStatus.completed, h JobStatus.failed⟩

theorem terminalFree_append {a b : Trace} (ha : TerminalFree a) (hb : TerminalFree b) :
    TerminalFree (a ++ b) := by
  refine ⟨fun h => ?_, fun h => ?_⟩
  · rcases List.mem_append.mp h with h' | h'
    exacts [ha.1 h', hb.1 h']
  · rcases List.mem_append.mp h with h' | h'
    exacts [ha.2 h', hb.2 h']

theorem statusFree_cloneRepos (w : World) (p : Params) : StatusFree (cloneReposPhase w p).1 := by
  intro s
  unfold cloneReposPhase
  by_cases h : p.brandingRepos = []
  · simp [h]
  · simp only [if_neg h]
    cases hcp : w.clonePrep with
    | error er => simp
    | ok u =>
      intro hmem
      rcases List.mem_append.mp hmem with h' | h'
      · simp at h'
      · rcases List.mem_flatMap.mp h' with ⟨repo, _, hr⟩
        cases hcr : w.cloneRepo repo <;> rw [hcr] at hr <;> simp at hr

theorem statusFree_brandDetect (w : World) (p : Params) : StatusFree (brandDetectTrace w p) := by
  intro s
  unfold brandDetectTrace
  by_cases h : w.localBrandPresent
  · simp only [if_pos h]
    intro hmem
    rcases List.mem_append.mp hmem with h' | h'
    · rcases List.mem_append.mp h' with h'' | h''
      · simp at h''
      · by_cases hw : p.modules.contains "website" <;> simp_all
    · by_cases hb : (if p.modules.contains "website" then p.modules
          else "website" :: p.modules).contains brandTheme <;> simp_all
  · simp [h]

theorem statusFree_netPhase (w : World) (p : Params) : StatusFree (netPhase w p).1 := by
  intro s
  unfold netPhase
  cases w.netCreate with
  | ok => simp
  | apiError msg =>
    by_cases h : strContains msg "fully subnetted"
    · simp only [if_pos h]
      cases w.scanErr with
      | some ferr => simp
      | none =>
        cases findFreeSubnet w.existingSubnets with
        | some c => cases w.customNetCreate <;> simp
        | none => simp
    · simp [h]

theorem statusFree_dbPhase (w : World) : StatusFree (dbPhase w).1 := by
  intro s
  unfold dbPhase
  cases w.dbRun <;> simp

theorem statusFree_odooPhase (w : World) (p : Params) : StatusFree (odooPhase w p).1 := by
  intro s
  unfold odooPhase
  cases w.odooRun with
  | error e => simp
  | ok cid => cases w.hostPort <;> simp

theorem statusFree_historyPhase (w : World) (p : Params) : StatusFree (historyPhase w p) := by
  intro s
  unfold historyPhase
  cases w.historyOk <;> simp

theorem statusFree_loginTrace : StatusFree loginTrace := by
  intro s
  simp [loginTrace]

theorem statusFree_retryRpc (out : Nat → Except String Unit) (method arg : String)
    (okT : Trace) (what : String) (hok : StatusFree okT) :
    ∀ (fuel attempt : Nat), StatusFree (retryRpc out method arg okT what attempt fuel).1 := by
  intro fuel
  induction fuel with
  | zero => intro attempt s hs; cases hs
  | succ n ih =>
    intro attempt s hs
    rw [retryRpc] at hs
    cases hout : out attempt with
    | ok u =>
      rw [hout] at hs
      rcases List.mem_append.mp hs with h | h
      · simp at h
      · exact hok s h
    | error m =>
      rw [hout] at hs
      dsimp only at hs
      cases hb : (strContains m "Invalid Operation" && decide (attempt < 5)) with
      | true =>
        rw [hb] at hs
        rw [if_pos rfl] at hs
        have hs2 : Ev.setStatus s ∈
            [Ev.mgmt method arg, Ev.logLine (lockRetryLog what attempt),
              Ev.sleep (attempt * 5)]
              ++ (retryRpc out method arg okT what (attempt + 1) n).1 := hs
        rcases List.mem_append.mp hs2 with hA | hA
        · simp at hA
        · exact ih (attempt + 1) s hA
      | false =>
        rw [hb] at hs
        simp at hs

theorem statusFree_updateListBlock (w : World) : StatusFree (updateListBlock w) := by
  intro s
  unfold updateListBlock
  have hfree := statusFree_retryRpc w.rpc.updateList "update_list" ""
    [Ev.logLine "Module list updated successfully."] "Module list update"
    (by intro s hs; simp at hs) 5 1
  cases hr : retryRpc w.rpc.updateList "update_list" ""
      [Ev.logLine "Module list updated successfully."] "Module list update" 1 5 with
  | mk t r2 =>
    rw [hr] at hfree
    cases r2 with
    | ok u =>
      intro hs
      rcases List.mem_append.mp hs with h | h
      · rcases List.mem_append.mp h with h' | h'
        · simp at h'
        · exact hfree s h'
      · simp at h
    | error e =>
      intro hs
      rcases List.mem_append.mp hs with h | h
      · rcases List.mem_append.mp h with h' | h'
        · simp at h'
        · exact hfree s h'
      · simp at h

theorem statusFree_fallbackCopy (w : World) (mod : String) :
    StatusFree (fallbackCopyTrace w mod) := by
  intro s
  unfold fallbackCopyTrace
  by_cases h : w.localBrandPresent ∧ mod = brandTheme
  · simp only [if_pos h]
    intro hs
    rcases List.mem_append.mp hs with h' | h'
    · simp at h'
    · cases hc : w.rpc.copyCmd with
      | error e =>
        rw [hc] at h'
        simp at h'
      | ok u =>
        rw [hc] at h'
        rcases List.mem_append.mp h' with h2 | h2
        · simp at h2
        · cases hcu : w.rpc.copyUpdateList with
          | error e =>
            rw [hcu] at h2
            simp at h2
          | ok u2 =>
            rw [hcu] at h2
            rcases List.mem_append.mp h2 with h3 | h3
            · simp at h3
            · cases hcs : w.rpc.copySearch with
              | error e =>
                rw [hcs] at h3
                simp at h3
              | ok mids =>
                rw [hcs] at h3
                cases mids <;> simp at h3
  · simp [h]

theorem statusFree_installBrandingModule (w : World) (mod : String) :
    StatusFree (installBrandingModule w mod) := by
  intro s
  unfold installBrandingModule
  cases w.rpc.searchMod mod with
  | error e => simp
  | ok mids =>
    cases mids with
    | nil =>
      intro hs
      rcases List.mem_append.mp hs with h | h
      · simp at h
      · exact statusFree_fallbackCopy w mod s h
    | cons i is =>
      cases w.rpc.readState mod with
      | error e => simp
      | ok st =>
        by_cases hst : st = some "uninstalled"
        · simp only [if_pos hst]
          have hfree := statusFree_retryRpc (w.rpc.installMod mod) "button_immediate_install" mod
            [Ev.logLine ("Module " ++ mod ++ " installation triggered.")] "Module install"
            (by intro s hs; simp at hs) 5 1
          cases hr : retryRpc (w.rpc.installMod mod) "button_immediate_install" mod
              [Ev.logLine ("Module " ++ mod ++ " installation triggered.")] "Module install" 1 5 with
          | mk t r2 =>
            rw [hr] at hfree
            cases r2 with
            | ok u =>
              intro hs
              rcases List.mem_append.mp hs with h | h
              · simp at h
              · exact hfree s h
            | error e =>
              intro hs
              rcases List.mem_append.mp hs with h | h
              · rcases List.mem_append.mp h with h' | h'
                · simp at h'
                · exact hfree s h'
              · simp at h
        · simp [hst]

theorem statusFree_applyTheme (w : World) : StatusFree (applyThemeTrace w) := by
  intro s
  unfold applyThemeTrace
  cases w.rpc.applyTheme with
  | ok u =>
    intro hs
    rcases List.mem_append.mp hs with h | h <;> simp at h
  | error e =>
    intro hs
    rcases List.mem_append.mp hs with h | h <;> simp at h

theorem statusFree_autoInstallModule (w : World) (moduleName : String) :
    StatusFree (autoInstallModule w moduleName) := by
  intro s
  unfold autoInstallModule
  cases w.rpc.searchMod moduleName with
  | error e => simp
  | ok mids =>
    cases mids with
    | nil => simp
    | cons i is =>
      cases w.rpc.readState moduleName with
      | error e => simp
      | ok st =>
        by_cases hst : st = some "uninstalled"
        · simp only [if_pos hst]
          intro hs
          rcases List.mem_append.mp hs with h | h
          · simp at h
          · cases hi : w.rpc.installMod moduleName 1 <;> rw [hi] at h <;> simp at h
        · simp [hst]

theorem statusFree_autoDetect (w : World) : StatusFree (autoDetectBlock w) := by
  intro s
  unfold autoDetectBlock
  intro hs
  rcases List.mem_append.mp hs with h | h
  · simp at h
  · cases hd : w.rpc.detected with
    | nil => simp_all
    | cons d ds =>
      rw [hd] at h
      rcases List.mem_append.mp h with h' | h'
      · simp at h'
      · rcases List.mem_flatMap.mp h' with ⟨a, _, ha⟩
        exact statusFree_autoInstallModule w a s ha

theorem statusFree_readyLoop (r : Option Nat) : StatusFree (readyLoopTrace r).1 := by
  intro s
  unfold readyLoopTrace
  cases r with
  | some k =>
    by_cases h : k < 40
    · simp only [if_pos h]
      intro hs
      rcases List.mem_append.mp hs with h' | h'
      · rcases List.mem_flatMap.mp h' with ⟨a, _, ha⟩
        simp at ha
      · simp at h'
    · simp only [if_neg h]
      intro hs
      rcases List.mem_flatMap.mp hs with ⟨a, _, ha⟩
      simp at ha
  | none =>
    intro hs
    rcases List.mem_flatMap.mp hs with ⟨a, _, ha⟩
    simp at ha

theorem statusFree_brandingPhase (w : World) (brandingMods : Option (List String))
    (extraAddons : Bool) : StatusFree (brandingPhase w brandingMods extraAddons) := by
  intro s
  unfold brandingPhase
  by_cases h : (extraAddons || w.localBrandPresent) = true
  · simp only [if_pos h]
    intro hs
    rcases List.mem_append.mp hs with h1 | h1
    · rcases List.mem_append.mp h1 with h2 | h2
      · simp at h2
      · exact statusFree_readyLoop w.rpc.readyAt s h2
    · by_cases hready : (readyLoopTrace w.rpc.readyAt).2 = true
      · rw [if_pos hready] at h1
        rcases List.mem_append.mp h1 with h2 | h2
        · simp at h2
        · cases hau : w.rpc.auth with
          | error e =>
            rw [hau] at h2
            simp at h2
          | ok uid =>
            rw [hau] at h2
            dsimp only at h2
            by_cases huid : uid = 0
            · simp [huid] at h2
            · rw [if_neg huid] at h2
              rcases List.mem_append.mp h2 with h3 | h3
              · exact statusFree_updateListBlock w s h3
              · cases brandingMods with
                | none => exact statusFree_autoDetect w s h3
                | some bm =>
                  cases bm with
                  | nil => exact statusFree_autoDetect w s h3
                  | cons b bs =>
                    rcases List.mem_append.mp h3 with h4 | h4
                    · rcases List.mem_append.mp h4 with h5 | h5
                      · simp at h5
                      · rcases List.mem_flatMap.mp h5 with ⟨a, _, ha⟩
                        exact statusFree_installBrandingModule w a s ha
                    · exact statusFree_applyTheme w s h4
      · simp only [Bool.not_eq_true] at hready
        rw [hready] at h1
        simp at h1
  · simp only [Bool.not_eq_true] at h
    rw [h]
    simp

theorem statusFree_cleanupTrace (w : World) : StatusFree (cleanupTrace w) := by
  intro s
  unfold cleanupTrace
  cases w.cleanup with
  | ok r =>
    intro hs
    rcases List.mem_append.mp hs with h | h
    · rcases List.mem_append.mp h with h' | h'
      · rcases List.mem_map.mp h' with ⟨c, _, hc⟩
        cases hc
      · rcases List.mem_map.mp h' with ⟨n, _, hn⟩
        cases hn
    · simp at h
  | error e => simp

theorem terminal_cases {e : Ev} (h : e.isTerminalSet = true) :
    e = Ev.setStatus JobStatus.completed ∨ e = Ev.setStatus JobStatus.failed := by
  cases e with
  | setStatus s =>
    cases s with
    | pending => exact Bool.noConfusion h
    | running => exact Bool.noConfusion h
    | completed => exact Or.inl rfl
    | failed => exact Or.inr rfl
  | logLine m => exact Bool.noConfusion h
  | setUrl u => exact Bool.noConfusion h
  | sleep n => exact Bool.noConfusion h
  | mgmt a b => exact Bool.noConfusion h
  | execCmd c => exact Bool.noConfusion h

theorem terminalFree_events {t : Trace} (h : TerminalFree t) :
    ∀ e ∈ t, e.isTerminalSet = false := by
  intro e he
  cases hb : e.isTerminalSet with
  | false => rfl
  | true =>
    rcases terminal_cases hb with rfl | rfl
    · exact absurd he h.1
    · exact absurd he h.2

theorem statusEvents_eq_nil {t : Trace} (h : StatusFree t) : statusEvents t = [] := by
  rw [statusEvents, List.filter_eq_nil_iff]
  intro e he hstat
  cases e with
  | setStatus s => exact h s he
  | logLine m => exact Bool.noConfusion hstat
  | setUrl u => exact Bool.noConfusion hstat
  | sleep n => exact Bool.noConfusion hstat
  | mgmt a b => exact Bool.noConfusion hstat
  | execCmd c => exact Bool.noConfusion hstat

theorem statusEvents_append (a b : Trace) :
    statusEvents (a ++ b) = statusEvents a ++ statusEvents b :=
  List.filter_append a b

theorem afterFirstTerminal_decomp (s : JobStatus) (post : Trace)
    (hs : s = JobStatus.completed ∨ s = JobStatus.failed) :
    ∀ pre : Trace, TerminalFree pre →
      afterFirstTerminal (pre ++ Ev.setStatus s :: post) = post := by
  have hterm : (Ev.setStatus s).isTerminalSet = true := by
    rcases hs with rfl | rfl <;> rfl
  intro pre
  induction pre with
  | nil =>
    intro _
    unfold afterFirstTerminal
    rw [List.nil_append, List.dropWhile_cons, hterm]
    simp
  | cons e rest ih =>
    intro hpre
    have he : e.isTerminalSet = false :=
      terminalFree_events hpre e (List.mem_cons_self e rest)
    have hrest : TerminalFree rest :=
      ⟨fun hm => hpre.1 (List.mem_cons_of_mem e hm),
       fun hm => hpre.2 (List.mem_cons_of_mem e hm)⟩
    unfold afterFirstTerminal at ih ⊢
    rw [List.cons_append, List.dropWhile_cons, he]
    simpa using ih hrest

theorem exceptTrace_decomp (w : World) (e : String) :
    ∃ a b, exceptTrace w e = a ++ Ev.setStatus JobStatus.failed :: b ∧
      TerminalFree a ∧ StatusFree b := by
  have hb : StatusFree
      (Ev.logLine "Attempting to clean up created resources..." :: cleanupTrace w) := by
    intro s hs
    rcases List.mem_cons.mp hs with h | h
    · exact Ev.noConfusion h
    · exact statusFree_cleanupTrace w s h
  unfold exceptTrace
  by_cases h : strContains e "fully subnetted"
  · refine ⟨[Ev.logLine "Docker Error: Docker has run out of network address pools.",
      Ev.logLine "This is a common issue that can be resolved by cleaning up unused Docker networks.",
      Ev.logLine "Please run the following command in your terminal and then try again:",
      Ev.logLine "-> docker network prune"],
      Ev.logLine "Attempting to clean up created resources..." :: cleanupTrace w, ?_, ?_, hb⟩
    · simp [h]
    · exact ⟨by simp, by simp⟩
  · refine ⟨[Ev.logLine ("An unexpected error occurred: " ++ e)],
      Ev.logLine "Attempting to clean up created resources..." :: cleanupTrace w, ?_, ?_, hb⟩
    · simp [h]
    · exact ⟨by simp, by simp⟩

theorem preTrace_terminalFree : TerminalFree
    [Ev.logLine "Starting environment creation...", Ev.setStatus JobStatus.running, Ev.sleep 1] :=
  ⟨by simp, by simp⟩

theorem mainTry_shape (w : World) (p : Params) (bm : Option (List String)) (ea : Bool) :
    ∃ pre s post, mainTryTrace w p bm ea = pre ++ Ev.setStatus s :: post ∧
      (s = JobStatus.completed ∨ s = JobStatus.failed) ∧ TerminalFree pre ∧ StatusFree post := by
  unfold mainTryTrace
  cases hnet : netPhase w p with
  | mk t1 r1 =>
    have ht1 : StatusFree t1 := by
      have h := statusFree_netPhase w p
      rw [hnet] at h
      exact h
    cases r1 with
    | error e =>
      obtain ⟨a, b, heq, ha, hbb⟩ := exceptTrace_decomp w e
      refine ⟨[Ev.logLine "Starting environment creation...", Ev.setStatus JobStatus.running,
        Ev.sleep 1] ++ t1 ++ a, JobStatus.failed, b, ?_, Or.inr rfl, ?_, hbb⟩
      · dsimp only
        rw [heq]
        simp [List.append_assoc]
      · exact terminalFree_append
          (terminalFree_append preTrace_terminalFree (terminalFree_of_statusFree ht1)) ha
    | ok u =>
      cases hdb : dbPhase w with
      | mk t2 r2 =>
        have ht2 : StatusFree t2 := by
          have h := statusFree_dbPhase w
          rw [hdb] at h
          exact h
        cases r2 with
        | error e =>
          obtain ⟨a, b, heq, ha, hbb⟩ := exceptTrace_decomp w e
          refine ⟨[Ev.logLine "Starting environment creation...", Ev.setStatus JobStatus.running,
            Ev.sleep 1] ++ t1 ++ [Ev.sleep 1] ++ t2 ++ a, JobStatus.failed, b, ?_, Or.inr rfl,
            ?_, hbb⟩
          · dsimp only
            rw [heq]
            simp [List.append_assoc]
          · refine terminalFree_append (terminalFree_append (terminalFree_append
              (terminalFree_append preTrace_terminalFree (terminalFree_of_statusFree ht1))
              ⟨by simp, by simp⟩) (terminalFree_of_statusFree ht2)) ha
        | ok u2 =>
          cases hodoo : odooPhase w p with
          | mk t3 r3 =>
            have ht3 : StatusFree t3 := by
              have h := statusFree_odooPhase w p
              rw [hodoo] at h
              exact h
            cases r3 with
            | error e =>
              obtain ⟨a, b, heq, ha, hbb⟩ := exceptTrace_decomp w e
              refine ⟨[Ev.logLine "Starting environment creation...",
                Ev.setStatus JobStatus.running, Ev.sleep 1] ++ t1 ++ [Ev.sleep 1] ++ t2 ++ t3 ++ a,
                JobStatus.failed, b, ?_, Or.inr rfl, ?_, hbb⟩
              · dsimp only
                rw [heq]
                simp [List.append_assoc]
              · refine terminalFree_append (terminalFree_append (terminalFree_append
                  (terminalFree_append (terminalFree_append preTrace_terminalFree
                    (terminalFree_of_statusFree ht1)) ⟨by simp, by simp⟩)
                  (terminalFree_of_statusFree ht2)) (terminalFree_of_statusFree ht3)) ha
            | ok port =>
              refine ⟨[Ev.logLine "Starting environment creation...",
                Ev.setStatus JobStatus.running, Ev.sleep 1] ++ t1 ++ [Ev.sleep 1] ++ t2 ++ t3 ++
                [Ev.logLine ("Environment created successfully! Access it at: " ++
                  ("http://localhost:" ++ toString port))] ++
                historyPhase w p ++ loginTrace, JobStatus.completed,
                Ev.setUrl ("http://localhost:" ++ toString port) :: brandingPhase w bm ea,
                ?_, Or.inl rfl, ?_, ?_⟩
              · simp [List.append_assoc]
              · refine terminalFree_append (terminalFree_append (terminalFree_append
                  (terminalFree_append (terminalFree_append (terminalFree_append
                    (terminalFree_append preTrace_terminalFree
                      (terminalFree_of_statusFree ht1)) ⟨by simp, by simp⟩)
                    (terminalFree_of_statusFree ht2)) (terminalFree_of_statusFree ht3))
                  ⟨by simp, by simp⟩)
                  (terminalFree_of_statusFree (statusFree_historyPhase w p)))
                  (terminalFree_of_statusFree statusFree_loginTrace)
              · intro s hs
                rcases List.mem_cons.mp hs with h | h
                · exact Ev.noConfusion h
                · exact statusFree_brandingPhase w bm ea s h

theorem run_shape (w : World) (p : Params) :
    ∃ pre s post, runCreateRealEnvironment w p = pre ++ Ev.setStatus s :: post ∧
      (s = JobStatus.completed ∨ s = JobStatus.failed) ∧ TerminalFree pre ∧ StatusFree post := by
  have hclone : TerminalFree (cloneReposPhase w p).1 :=
    terminalFree_of_statusFree (statusFree_cloneRepos w p)
  have hbrand : TerminalFree (brandDetectTrace w p) :=
    terminalFree_of_statusFree (statusFree_brandDetect w p)
  unfold runCreateRealEnvironment
  by_cases hD : w.dockerLoaded
  · by_cases hP : w.pingOk
    · obtain ⟨pre, s, post, heq, hs, hpre, hpost⟩ := mainTry_shape w p
        (computeStartupModules p.modules p.websiteDesign p.brandingMods w.localBrandPresent).2
        (cloneReposPhase w p).2
      refine ⟨(cloneReposPhase w p).1 ++ brandDetectTrace w p ++ pre, s, post, ?_, hs, ?_, hpost⟩
      · simp [hD, hP, heq, List.append_assoc]
      · exact terminalFree_append (terminalFree_append hclone hbrand) hpre
    · refine ⟨(cloneReposPhase w p).1 ++ brandDetectTrace w p ++
        [Ev.logLine "Docker Error: Could not connect to Docker daemon.",
         Ev.logLine "Please ensure Docker Desktop is installed and running.",
         Ev.logLine ("Details: " ++ w.pingErr)], JobStatus.failed, [], ?_, Or.inr rfl, ?_,
        fun s hs => absurd hs (List.not_mem_nil _)⟩
      · simp [hD, hP, List.append_assoc]
      · exact terminalFree_append (terminalFree_append hclone hbrand) ⟨by simp, by simp⟩
  · refine ⟨(cloneReposPhase w p).1 ++ brandDetectTrace w p ++
      [Ev.logLine ("Configuration Error: " ++ dockerLoadErr)], JobStatus.failed, [],
      ?_, Or.inr rfl, ?_, fun s hs => absurd hs (List.not_mem_nil _)⟩
    · simp [hD, List.append_assoc]
    · exact terminalFree_append (terminalFree_append hclone hbrand) ⟨by simp, by simp⟩

/-- C2 amended: after the first terminal status write (`completed` or
`failed`), the worker never writes the status field again — though it may
still append log lines (post-failure cleanup logging, post-completion
extension-install logging) and set the url. -/
theorem C2_status_never_reassigned (w : World) (p : Params) :
    statusEvents (afterFirstTerminal (runCreateRealEnvironment w p)) = [] := by
  obtain ⟨pre, s, post, heq, hs, hpre, hpost⟩ := run_shape w p
  rw [heq, afterFirstTerminal_decomp s post hs pre hpre]
  exact statusEvents_eq_nil hpost

/-- C2 counterexample: with a failing network creation, the worker sets
the status to `failed` and *then* appends the cleanup log lines, so job
mutations do occur after the first terminal status write. -/
theorem C2_counterexample :
    Ev.logLine "Attempting to clean up created resources..." ∈
      afterFirstTerminal (runCreateRealEnvironment wNetFail pPlain) ∧
    jobMutations (afterFirstTerminal (runCreateRealEnvironment wNetFail pPlain)) ≠ [] := by
  refine ⟨by decide, by decide⟩

theorem foldl_status (t : Trace) : ∀ acc : Option JobStatus,
    t.foldl (fun acc e => match e with | Ev.setStatus s => some s | _ => acc) acc =
      (statusEvents t).foldl
        (fun acc e => match e with | Ev.setStatus s => some s | _ => acc) acc := by
  induction t with
  | nil => intro acc; rfl
  | cons e rest ih =>
    intro acc
    rw [List.foldl_cons, statusEvents, List.filter_cons]
    cases e with
    | setStatus s => simpa [Ev.isSetStatus, statusEvents] using ih (some s)
    | logLine m => simpa [Ev.isSetStatus, statusEvents] using ih acc
    | setUrl u => simpa [Ev.isSetStatus, statusEvents] using ih acc
    | sleep n => simpa [Ev.isSetStatus, statusEvents] using ih acc
    | mgmt a b => simpa [Ev.isSetStatus, statusEvents] using ih acc
    | execCmd c => simpa [Ev.isSetStatus, statusEvents] using ih acc

theorem finalStatus_statusEvents (t : Trace) : finalStatus t = finalStatus (statusEvents t) :=
  foldl_status t none

theorem run_success_statusEvents (w : World) (p : Params)
    (hD : w.dockerLoaded = true) (hP : w.pingOk = true)
    (hN : (netPhase w p).2 = Except.ok ()) (hB : (dbPhase w).2 = Except.ok ())
    (port : Nat) (hO : (odooPhase w p).2 = Except.ok port) :
    statusEvents (runCreateRealEnvironment w p) =
      [Ev.setStatus JobStatus.running, Ev.setStatus JobStatus.completed] := by
  unfold runCreateRealEnvironment mainTryTrace
  cases hnet : netPhase w p with
  | mk t1 r1 =>
    rw [hnet] at hN
    dsimp only at hN
    subst hN
    have e1 : statusEvents t1 = [] := by
      have h := statusFree_netPhase w p
      rw [hnet] at h
      exact statusEvents_eq_nil h
    cases hdb : dbPhase w with
    | mk t2 r2 =>
      rw [hdb] at hB
      dsimp only at hB
      subst hB
      have e2 : statusEvents t2 = [] := by
        have h := statusFree_dbPhase w
        rw [hdb] at h
        exact statusEvents_eq_nil h
      cases hodoo : odooPhase w p with
      | mk t3 r3 =>
        rw [hodoo] at hO
        dsimp only at hO
        subst hO
        have e3 : statusEvents t3 = [] := by
          have h := statusFree_odooPhase w p
          rw [hodoo] at h
          exact statusEvents_eq_nil h
        have ehist : statusEvents (historyPhase w p) = [] :=
          statusEvents_eq_nil (statusFree_historyPhase w p)
        have elogin : statusEvents loginTrace = [] :=
          statusEvents_eq_nil statusFree_loginTrace
        have ebrand : ∀ bm ea, statusEvents (brandingPhase w bm ea) = [] :=
          fun bm ea => statusEvents_eq_nil (statusFree_brandingPhase w bm ea)
        have eclone := statusEvents_eq_nil (statusFree_cloneRepos w p)
        have ebd := statusEvents_eq_nil (statusFree_brandDetect w p)
        simp only [statusEvents] at e1 e2 e3 ehist elogin ebrand eclone ebd
        simp [hD, hP, statusEvents, List.filter_append, List.filter_cons, e1, e2, e3,
          ehist, elogin, ebrand, eclone, ebd, Ev.isSetStatus]

/-- C4: once the mandatory phases (Docker check, network, database,
workload with its port lookup) have succeeded, the job finishes
`completed` regardless of every post-start extension-installation
outcome: any exception there is caught and logged locally and the status
is never flipped to `failed`. -/
theorem C4_post_start_failures_stay_completed (w : World) (p : Params)
    (hD : w.dockerLoaded = true) (hP : w.pingOk = true)
    (hN : (netPhase w p).2 = Except.ok ()) (hB : (dbPhase w).2 = Except.ok ())
    (hO : ∃ port, (odooPhase w p).2 = Except.ok port) :
    finalStatus (runCreateRealEnvironment w p) = some JobStatus.completed ∧
    Ev.setStatus JobStatus.failed ∉ runCreateRealEnvironment w p := by
  obtain ⟨port, hO⟩ := hO
  have hse := run_success_statusEvents w p hD hP hN hB port hO
  constructor
  · rw [finalStatus_statusEvents, hse]
    rfl
  · intro hmem
    have hmem2 : Ev.setStatus JobStatus.failed ∈
        statusEvents (runCreateRealEnvironment w p) :=
      List.mem_filter.mpr ⟨hmem, rfl⟩
    rw [hse] at hmem2
    simp at hmem2

/-- Witness for C4: an all-success world with every branding oracle left
failing-free is irrelevant — the concrete run ends `completed` with no
`failed` write. -/
theorem C4_post_start_failures_stay_completed_witness :
    finalStatus (runCreateRealEnvironment wAllOk pPlain) = some JobStatus.completed ∧
    Ev.setStatus JobStatus.failed ∉ runCreateRealEnvironment wAllOk pPlain :=
  C4_post_start_failures_stay_completed wAllOk pPlain rfl rfl rfl rfl ⟨49153, rfl⟩

theorem retryRpc_nonlock (out : Nat → Except String Unit) (method arg : String) (okT : Trace)
    (what m : String) (h1 : out 1 = Except.error m)
    (hlock : strContains m "Invalid Operation" = false) :
    retryRpc out method arg okT what 1 5 = ([Ev.mgmt method arg], Except.error m) := by
  rw [show (5 : Nat) = 4 + 1 from rfl, retryRpc, h1]
  dsimp only
  rw [hlock]
  simp

theorem retryRpc_lock_all (out : Nat → Except String Unit) (method arg : String) (okT : Trace)
    (what m : String) (hm : ∀ n, out n = Except.error m)
    (hlock : strContains m "Invalid Operation" = true) :
    ∀ fuel attempt, attempt + fuel = 6 → 1 ≤ fuel →
      (retryRpc out method arg okT what attempt fuel).2 = Except.error m ∧
      countMgmt method arg (retryRpc out method arg okT what attempt fuel).1 = fuel ∧
      sleepsOf (retryRpc out method arg okT what attempt fuel).1 =
        (List.range' attempt (fuel - 1)).map (fun a => a * 5) := by
  intro fuel
  induction fuel with
  | zero =>
    intro attempt _ hf
    exact absurd hf (by decide)
  | succ f ih =>
    intro attempt h6 _
    rw [retryRpc, hm attempt]
    dsimp only
    rw [hlock]
    simp only [Bool.true_and, decide_eq_true_eq]
    by_cases hlt : attempt < 5
    · rw [if_pos hlt]
      have hf1 : 1 ≤ f := by omega
      obtain ⟨hr2, hrc, hrs⟩ := ih (attempt + 1) (by omega) hf1
      dsimp only
      refine ⟨hr2, ?_, ?_⟩
      · rw [countMgmt] at hrc ⊢
        rw [List.countP_append]
        simp [List.countP_cons, beq_iff_eq, hrc]
        omega
      · rw [sleepsOf] at hrs ⊢
        rw [List.filterMap_append]
        simp only [List.filterMap_cons]
        rw [hrs, show f + 1 - 1 = (f - 1) + 1 from by omega, List.range'_succ]
        simp
    · rw [if_neg hlt]
      have hf0 : f = 0 := by omega
      subst hf0
      refine ⟨rfl, ?_, ?_⟩
      · simp [countMgmt, List.countP_cons]
      · simp [sleepsOf, List.filterMap_cons]

theorem countInstall_fallback (w : World) (mod : String) :
    countMgmt "button_immediate_install" mod (fallbackCopyTrace w mod) = 0 := by
  unfold fallbackCopyTrace
  by_cases h : w.localBrandPresent ∧ mod = brandTheme
  · rw [if_pos h]
    cases w.rpc.copyCmd with
    | error e => simp [countMgmt, List.countP_cons, List.countP_append]
    | ok u =>
      cases w.rpc.copyUpdateList with
      | error e => simp [countMgmt, List.countP_cons, List.countP_append]
      | ok u2 =>
        cases w.rpc.copySearch with
        | error e => simp [countMgmt, List.countP_cons, List.countP_append]
        | ok mids => cases mids <;> simp [countMgmt, List.countP_cons, List.countP_append]
  · rw [if_neg h]
    rfl

/-- C6 counterexample: in the auto-detect branch the install of a
discovered module is attempted exactly once even under the lock
condition — the backend raises the lock error, yet the trace carries a
single `button_immediate_install` call and no backoff waits after the
terminal status (only the fixed 3-second post-refresh settle), instead
of the claimed 5 attempts with waits 5/10/15/20. -/
theorem C6_counterexample :
    wAutoLock.rpc.installMod "brand_mod" 1 = Except.error lockErrMsg ∧
    strContains lockErrMsg "Invalid Operation" = true ∧
    countMgmt "button_immediate_install" "brand_mod"
      (runCreateRealEnvironment wAutoLock pAutoRepo) = 1 ∧
    sleepsOf (afterFirstTerminal (runCreateRealEnvironment wAutoLock pAutoRepo)) = [3] := by
  refine ⟨rfl, by decide, by decide, by decide⟩

/-- C6 amended: the module-list refresh and each *explicitly specified*
branding-module installation are retried only on the lock condition
(message containing `Invalid Operation`), with waits of `attempt*5`
seconds up to the fixed cap of 5 attempts, after which the error
propagates to the enclosing best-effort handler (logged, flow continues);
an *auto-detected* module installation is attempted exactly once with no
retry; and in both branches installation is triggered only for a module
whose current state reads `uninstalled`. -/
theorem C6_retry_policy :
    (∀ (out : Nat → Except String Unit) (method arg : String) (okT : Trace) (what m : String),
      out 1 = Except.error m → strContains m "Invalid Operation" = false →
      retryRpc out method arg okT what 1 5 = ([Ev.mgmt method arg], Except.error m)) ∧
    (∀ (out : Nat → Except String Unit) (method arg : String) (okT : Trace) (what m : String),
      (∀ n, out n = Except.error m) → strContains m "Invalid Operation" = true →
      (retryRpc out method arg okT what 1 5).2 = Except.error m ∧
      countMgmt method arg (retryRpc out method arg okT what 1 5).1 = 5 ∧
      sleepsOf (retryRpc out method arg okT what 1 5).1 = [5, 10, 15, 20]) ∧
    (∀ (w : World) (mod : String),
      0 < countMgmt "button_immediate_install" mod (installBrandingModule w mod) →
      w.rpc.readState mod = Except.ok (some "uninstalled")) ∧
    (∀ (w : World) (mod : String),
      countMgmt "button_immediate_install" mod (autoInstallModule w mod) ≤ 1 ∧
      (0 < countMgmt "button_immediate_install" mod (autoInstallModule w mod) →
        w.rpc.readState mod = Except.ok (some "uninstalled"))) := by
  refine ⟨retryRpc_nonlock, ?_, ?_, ?_⟩
  · intro out method arg okT what m hm hlock
    obtain ⟨h2, hc, hsl⟩ := retryRpc_lock_all out method arg okT what m hm hlock 5 1 rfl
      (by decide)
    refine ⟨h2, hc, ?_⟩
    rw [hsl]
    decide
  · intro w mod hcount
    unfold installBrandingModule at hcount
    cases hse : w.rpc.searchMod mod with
    | error e =>
      rw [hse] at hcount
      simp [countMgmt, List.countP_cons] at hcount
    | ok mids =>
      rw [hse] at hcount
      cases mids with
      | nil =>
        have hfb := countInstall_fallback w mod
        rw [countMgmt] at hfb
        rw [countMgmt, List.countP_append, hfb] at hcount
        simp [List.countP_cons] at hcount
      | cons i is =>
        cases hrs : w.rpc.readState mod with
        | error e =>
          rw [hrs] at hcount
          simp [countMgmt, List.countP_cons] at hcount
        | ok st =>
          rw [hrs] at hcount
          by_cases hst : st = some "uninstalled"
          · rw [hst]
          · dsimp only at hcount
            rw [if_neg hst] at hcount
            simp [countMgmt, List.countP_cons] at hcount
  · intro w mod
    unfold autoInstallModule
    cases hse : w.rpc.searchMod mod with
    | error e => simp [countMgmt, List.countP_cons]
    | ok mids =>
      cases mids with
      | nil => simp [countMgmt, List.countP_cons]
      | cons i is =>
        cases hrs : w.rpc.readState mod with
        | error e => simp [countMgmt, List.countP_cons]
        | ok st =>
          dsimp only
          by_cases hst : st = some "uninstalled"
          · rw [if_pos hst]
            constructor
            · cases hi : w.rpc.installMod mod 1 <;>
                simp [countMgmt, List.countP_cons, List.countP_append]
            · intro _
              rw [hst]
          · rw [if_neg hst]
            simp [countMgmt, List.countP_cons]

/-- Witness for C6 at concrete oracles: a non-lock failure stops after
one call; a permanent lock yields 5 calls with waits 5/10/15/20 and the
propagated error; the branded-install gate reads `uninstalled`; the
auto-detected install makes at most one call. -/
theorem C6_retry_policy_witness :
    retryRpc (fun _ => Except.error "boom") "update_list" "" [] "Module list update" 1 5 =
      ([Ev.mgmt "update_list" ""], Except.error "boom") ∧
    ((retryRpc (fun _ => Except.error lockErrMsg) "update_list" "" []
        "Module list update" 1 5).2 = Except.error lockErrMsg ∧
      countMgmt "update_list" "" (retryRpc (fun _ => Except.error lockErrMsg) "update_list" ""
        [] "Module list update" 1 5).1 = 5 ∧
      sleepsOf (retryRpc (fun _ => Except.error lockErrMsg) "update_list" "" []
        "Module list update" 1 5).1 = [5, 10, 15, 20]) ∧
    wBrandLock.rpc.readState "brand_mod" = Except.ok (some "uninstalled") ∧
    (countMgmt "button_immediate_install" "brand_mod"
        (autoInstallModule wAutoLock "brand_mod") ≤ 1 ∧
      (0 < countMgmt "button_immediate_install" "brand_mod"
          (autoInstallModule wAutoLock "brand_mod") →
        wAutoLock.rpc.readState "brand_mod" = Except.ok (some "uninstalled"))) :=
  ⟨C6_retry_policy.1 (fun _ => Except.error "boom") "update_list" "" [] "Module list update"
      "boom" rfl (by decide),
   C6_retry_policy.2.1 (fun _ => Except.error lockErrMsg) "update_list" "" []
      "Module list update" lockErrMsg (fun _ => rfl) (by decide),
   C6_retry_policy.2.2.1 wBrandLock "brand_mod" (by decide),
   C6_retry_policy.2.2.2 wAutoLock "brand_mod"⟩

theorem scanSecondRange_eq (existing : List IpNet) (o : Nat) (ys : List Nat) :
    scanSecondRange existing o ys =
      (ys.map (fun y => mkIp 172 o y 0 24)).find? (freeOf existing) := by
  induction ys with
  | nil => rfl
  | cons y rest ih =>
    simp only [scanSecondRange, List.map_cons, List.find?_cons]
    by_cases h : existing.any (fun net => ipOverlaps (mkIp 172 o y 0 24) net)
    · have hfree : freeOf existing (mkIp 172 o y 0 24) = false := by
        simp [freeOf, h]
      rw [if_pos h, hfree, ih]
    · have hfree : freeOf existing (mkIp 172 o y 0 24) = true := by
        simp only [freeOf, Bool.not_eq_true']
        exact Bool.of_not_eq_true h
      rw [if_neg h, hfree]

theorem scanOctets_eq (existing : List IpNet) (os : List Nat) :
    scanOctets existing os =
      (os.flatMap (fun o => (List.range 256).map (fun y => mkIp 172 o y 0 24))).find?
        (freeOf existing) := by
  induction os with
  | nil => rfl
  | cons o rest ih =>
    rw [List.flatMap_cons, List.find?_append]
    simp only [scanOctets, scanSecondRange_eq existing o]
    cases h : ((List.range 256).map fun y => mkIp 172 o y 0 24).find? (freeOf existing) with
    | some c => rfl
    | none => exact ih

/-- C1: on pool exhaustion, the fallback search returns exactly the first
candidate /24 block — scanning `172.17.0.0/16` through `172.31.0.0/16` in
ascending order — that overlaps none of the claimed subnets; on Scenario
B's claimed set it yields `172.17.2.0/24`; and when every candidate
overlaps, the network phase raises the descriptive exhaustion error
rather than retrying. -/
theorem C1_fallback_subnet_search :
    (∀ existing : List IpNet,
      findFreeSubnet existing = subnetCandidates.find? (freeOf existing)) ∧
    findFreeSubnet scenBSubnets = some (mkIp 172 17 2 0 24) ∧
    (∀ (w : World) (p : Params) (msg : String),
      w.netCreate = NetCreateOutcome.apiError msg →
      strContains msg "fully subnetted" = true →
      w.scanErr = none →
      findFreeSubnet w.existingSubnets = none →
      (netPhase w p).2 = Except.error subnetExhaustedMsg) := by
  refine ⟨?_, by decide, ?_⟩
  · intro existing
    unfold findFreeSubnet subnetCandidates
    exact scanOctets_eq existing _
  · intro w p msg h1 h2 h3 h4
    simp [netPhase, h1, h2, h3, h4]

set_option maxRecDepth 400000 in
/-- Witness for C1: the fully covered address space makes the network
phase raise the exhaustion error, and the search spec holds at
Scenario B's claimed set. -/
theorem C1_fallback_subnet_search_witness :
    (netPhase wExhausted pPlain).2 = Except.error subnetExhaustedMsg ∧
    findFreeSubnet scenBSubnets = subnetCandidates.find? (freeOf scenBSubnets) :=
  ⟨C1_fallback_subnet_search.2.2 wExhausted pPlain _ rfl (by decide) rfl (by decide),
   C1_fallback_subnet_search.1 scenBSubnets⟩

/-- C3 counterexample: the native-environment recorder dedupes by
identity alone, so replacing `alpha:8070` while `alpha:8071` also exists
removes both records and shrinks the list — the claim's
"list length unchanged" fails, although the starting list satisfies the
at-most-one-per-(identity, port) invariant and contains a record with
exactly the inserted (identity, port). -/
theorem C3_counterexample :
    DedupInv [recAlpha1, recAlpha2] ∧
    recAlpha1.db_name = recAlpha1New.db_name ∧
    recAlpha1.port = recAlpha1New.port ∧
    recAlpha1 ∈ [recAlpha1, recAlpha2] ∧
    (nativeHistoryInsert [recAlpha1, recAlpha2] recAlpha1New).length ≠
      ([recAlpha1, recAlpha2] : List EnvRecord).length := by
  refine ⟨by decide, by decide, by decide, by decide, by decide⟩

/-- C3 amended: the Docker-flow insertion removes exactly the records
matching on (identity, port) — leaving the length unchanged when one
exists — and preserves the dedup invariant; the native-flow insertion
dedupes by identity alone (so it can shrink the list) yet also preserves
the invariant; the local-env-start fallback prepends without removal but
only fires when no existing identity matches, likewise preserving the
invariant. -/
theorem C3_history_insertion (envs : List EnvRecord) (entry : EnvRecord) :
    (DedupInv envs →
      (∃ e ∈ envs, e.db_name = entry.db_name ∧ e.port = entry.port) →
      (dockerHistoryInsert envs entry).length = envs.length) ∧
    (DedupInv envs → DedupInv (dockerHistoryInsert envs entry)) ∧
    (DedupInv envs → DedupInv (nativeHistoryInsert envs entry)) ∧
    (∀ (dbName : String) (choiceHit : Bool), entry.db_name = dbName → DedupInv envs →
      DedupInv (localStartHistory envs dbName choiceHit entry)) := by
  refine ⟨?_, ?_, ?_, ?_⟩
  · induction envs with
    | nil =>
      rintro _ ⟨e, he, _⟩
      cases he
    | cons a rest ih =>
      intro hd hex
      rw [DedupInv, List.pairwise_cons] at hd
      obtain ⟨ha, hrest⟩ := hd
      unfold dockerHistoryInsert
      rw [List.filter_cons]
      by_cases hm : (a.db_name == entry.db_name && a.port == entry.port) = true
      · rw [Bool.and_eq_true, beq_iff_eq, beq_iff_eq] at hm
        have hskip : (!(a.db_name == entry.db_name && a.port == entry.port)) = false := by
          simp [hm.1, hm.2]
        rw [hskip, if_neg (by simp)]
        have hall : rest.filter
            (fun e => !(e.db_name == entry.db_name && e.port == entry.port)) = rest := by
          rw [List.filter_eq_self]
          intro b hb
          have hnb := ha b hb
          simp only [Bool.not_eq_true', Bool.and_eq_true, beq_iff_eq] at hnb ⊢
          rw [Bool.and_eq_false_iff]
          by_cases h1 : b.db_name = entry.db_name
          · by_cases h2 : b.port = entry.port
            · exact absurd ⟨hm.1.trans h1.symm, hm.2.trans h2.symm⟩ hnb
            · right; simpa [beq_iff_eq] using h2
          · left; simpa [beq_iff_eq] using h1
        rw [hall]
        simp
      · have hkeep : (!(a.db_name == entry.db_name && a.port == entry.port)) = true := by
          simp only [Bool.not_eq_true']
          exact Bool.of_not_eq_true hm
        rw [hkeep, if_pos rfl]
        have hex' : ∃ e ∈ rest, e.db_name = entry.db_name ∧ e.port = entry.port := by
          obtain ⟨e, he, hep⟩ := hex
          cases he with
          | head =>
            exfalso
            exact hm (by simp [hep.1, hep.2])
          | tail _ ht => exact ⟨e, ht, hep⟩
        have := ih hrest hex'
        unfold dockerHistoryInsert at this
        simp only [List.length_cons] at this ⊢
        omega
  · intro hd
    unfold dockerHistoryInsert
    rw [DedupInv, List.pairwise_cons]
    constructor
    · intro b hb
      rw [List.mem_filter] at hb
      obtain ⟨_, hpred⟩ := hb
      rintro ⟨h1, h2⟩
      simp [h1, h2] at hpred
    · exact List.Pairwise.filter _ hd
  · intro hd
    unfold nativeHistoryInsert
    rw [DedupInv, List.pairwise_cons]
    constructor
    · intro b hb
      rw [List.mem_filter] at hb
      obtain ⟨_, hpred⟩ := hb
      rintro ⟨h1, _⟩
      simp [h1] at hpred
    · exact List.Pairwise.filter _ hd
  · intro dbName choiceHit hname hd
    unfold localStartHistory
    by_cases hc : dbName ≠ "" ∧ findEnv envs dbName = none ∧ choiceHit = false
    · rw [if_pos hc]
      unfold localStartFallbackInsert
      rw [DedupInv, List.pairwise_cons]
      refine ⟨?_, hd⟩
      intro b hb
      rintro ⟨h1, _⟩
      obtain ⟨hne, hfind, _⟩ := hc
      unfold findEnv at hfind
      rw [if_neg hne] at hfind
      cases hpass : envs.find? (fun e => strLower e.db_name == strLower dbName) with
      | some e =>
        rw [hpass] at hfind
        simp at hfind
      | none =>
        have hall := List.find?_eq_none.mp hpass b hb
        apply hall
        have hbd : b.db_name = dbName := h1.symm.trans hname
        rw [hbd]
        simp
    · rw [if_neg hc]
      exact hd

/-- Witness for C3 at concrete record lists: an exact-(identity, port)
replace in the Docker flow keeps length 2 and the invariant, the native
insert keeps the invariant, and the guarded fallback insert of a fresh
identity keeps the invariant. -/
theorem C3_history_insertion_witness :
    (dockerHistoryInsert [recAlpha1, recBeta] recAlpha1New).length = 2 ∧
    DedupInv (dockerHistoryInsert [recAlpha1, recBeta] recAlpha1New) ∧
    DedupInv (nativeHistoryInsert [recAlpha1, recBeta] recAlpha1New) ∧
    DedupInv (localStartHistory [recAlpha1] "beta" false recBeta) :=
  ⟨(C3_history_insertion [recAlpha1, recBeta] recAlpha1New).1 (by decide)
      ⟨recAlpha1, by decide, by decide, by decide⟩,
   (C3_history_insertion [recAlpha1, recBeta] recAlpha1New).2.1 (by decide),
   (C3_history_insertion [recAlpha1, recBeta] recAlpha1New).2.2.1 (by decide),
   (C3_history_insertion [recAlpha1] recBeta).2.2.2 "beta" false rfl (by decide)⟩

/-- C5: submitting a provisioning request whose module list is empty or
absent is rejected with a 400 client error before any job exists: no job
id is issued, the job store is unchanged, and no background worker is
spawned. -/
theorem C5_empty_request_rejected (store : JobStore) (freshId : String)
    (modules : Option (List String)) (h : modules.getD [] = []) :
    odooExecute store freshId modules =
      { httpCode := 400, jobId := none,
        errMsg := some "No modules provided for execution.",
        store := store, spawned := false } := by
  unfold odooExecute
  rw [if_pos h]

/-- Witness for C5 at a concrete absent module list. -/
theorem C5_empty_request_rejected_witness :
    odooExecute [] "newid" none =
      { httpCode := 400, jobId := none,
        errMsg := some "No modules provided for execution.",
        store := [], spawned := false } :=
  C5_empty_request_rejected [] "newid" none rfl

/-- C7: polling the job-status endpoint with an unknown id yields a 404
response whose status field is `not_found` (no exception escapes), while
a known id yields that job's status, log and optional url. -/
theorem C7_status_not_found (store : JobStore) (jobId : String) :
    (store.lookup jobId = none →
      odooJobStatus store jobId =
        { httpCode := 404, statusField := "not_found", log := none, url := none }) ∧
    (∀ j, store.lookup jobId = some j →
      odooJobStatus store jobId =
        { httpCode := 200, statusField := j.status.render,
          log := some j.log, url := some j.url }) := by
  constructor
  · intro h
    simp [odooJobStatus, h]
  · intro j h
    simp [odooJobStatus, h]

/-- Witness for C7: a store holding one running job, polled at an unknown
and at the known id. -/
theorem C7_status_not_found_witness :
    odooJobStatus [("known", jobRunning)] "missing" =
      { httpCode := 404, statusField := "not_found", log := none, url := none } ∧
    odooJobStatus [("known", jobRunning)] "known" =
      { httpCode := 200, statusField := jobRunning.status.render,
        log := some jobRunning.log, url := some jobRunning.url } :=
  ⟨(C7_status_not_found [("known", jobRunning)] "missing").1 rfl,
   (C7_status_not_found [("known", jobRunning)] "known").2 jobRunning rfl⟩

/-- C8: loading the persisted history returns the stored list sorted by
`created_at` descending (newest first) as a permutation of what was
stored, and a missing history file yields the empty list. -/
theorem C8_history_newest_first :
    (∀ l : List EnvRecord,
      loadEnvHistory (HistoryFile.jsonList l) = some (sortByCreatedDesc l) ∧
      List.Pairwise (fun a b => b.created_at ≤ a.created_at) (sortByCreatedDesc l) ∧
      (sortByCreatedDesc l).Perm l) ∧
    loadEnvHistory HistoryFile.missing = some [] := by
  refine ⟨fun l => ⟨rfl, ?_, ?_⟩, rfl⟩
  · have h := @List.sorted_mergeSort EnvRecord
      (fun a b : EnvRecord => decide (b.created_at ≤ a.created_at))
      (fun a b c hab hbc => by
        simp only [decide_eq_true_eq] at hab hbc ⊢
        exact le_trans hbc hab)
      (fun a b => by
        simp only [Bool.or_eq_true, decide_eq_true_eq]
        exact le_total b.created_at a.created_at)
      l
    exact h.imp (fun hab => by simpa using hab)
  · exact List.mergeSort_perm l _

/-- C10 counterexample: with the local brand-theme directory present and
requested modules `["crm", "website"]`, the list encoded into `--init`
starts with `crm`, not `website`, and *does* contain
`deployable_brand_theme` — the branding-module merge (line 1318) re-adds
the theme that the deferral (lines 1309-1311) removed. -/
theorem C10_counterexample :
    (computeStartupModules ["crm", "website"] none none true).1 =
      ["crm", "website", "deployable_brand_theme"] ∧
    (computeStartupModules ["crm", "website"] none none true).1.head? = some "crm" ∧
    brandTheme ∈ (computeStartupModules ["crm", "website"] none none true).1 ∧
    odooCommand "odoo-abcdef01-db" (computeStartupModules ["crm", "website"] none none true).1
        false true =
      "--database=odoo-abcdef01-db --init=crm,website,deployable_brand_theme " ++
        "--addons-path=/mnt/extra-addons,/usr/lib/python3/dist-packages/odoo/addons" := by
  refine ⟨by decide, by decide, by decide, by decide⟩

/-- C10 amended: whenever the local brand-theme module directory is
present, the startup module list *contains* `website` (it is inserted
first only when absent from the request) and *contains*
`deployable_brand_theme`, re-appended by the branding-module merge after
the deferral removal. -/
theorem website_mem_brandAdjust (m0 : List String) : "website" ∈ brandAdjustModules m0 := by
  unfold brandAdjustModules
  have hw1 : "website" ∈ (if m0.contains "website" then m0 else "website" :: m0) := by
    by_cases h : m0.contains "website"
    · rw [if_pos h]; exact memOfContains h
    · rw [if_neg h]; exact List.mem_cons_self _ _
  by_cases h : (if m0.contains "website" then m0 else "website" :: m0).contains brandTheme
  · rw [if_pos h, List.mem_filter]
    exact ⟨hw1, by decide⟩
  · rw [if_neg h]; exact hw1

theorem brandTheme_mem_brandAdjustBranding (bm0 : Option (List String)) :
    brandTheme ∈ brandAdjustBranding bm0 := by
  unfold brandAdjustBranding
  by_cases h : (bm0.getD []).contains brandTheme
  · rw [if_pos h]; exact memOfContains h
  · rw [if_neg h]; exact List.mem_append_right _ (List.mem_cons_self _ _)

theorem mem_websiteDesignStep {a : String} {modules : List String} (wd : Option String)
    (h : a ∈ modules) : a ∈ websiteDesignStep modules wd := by
  cases wd with
  | none => exact h
  | some w =>
    simp only [websiteDesignStep]
    by_cases hc : w ≠ "" ∧ modules.contains w = false
    · rw [if_pos hc]; exact List.mem_append_left _ h
    · rw [if_neg hc]; exact h

theorem mem_brandingMergeStep {a : String} {modules : List String} (bm : Option (List String))
    (h : a ∈ modules) : a ∈ brandingMergeStep modules bm := by
  cases bm with
  | none => exact h
  | some l =>
    simp only [brandingMergeStep]
    by_cases hc : l ≠ []
    · rw [if_pos hc]; exact List.mem_append_left _ h
    · rw [if_neg hc]; exact h

theorem brandTheme_mem_brandingMergeStep {modules bm : List String}
    (h : brandTheme ∈ bm) : brandTheme ∈ brandingMergeStep modules (some bm) := by
  simp only [brandingMergeStep]
  rw [if_pos (List.ne_nil_of_mem h)]
  exact memAppendFilterNotContains modules bm h

/-- C10 amended: whenever the local brand-theme module directory is
present, the startup module list *contains* `website` (it is inserted
first only when absent from the request) and *contains*
`deployable_brand_theme`, re-appended by the branding-module merge after
the deferral removal. -/
theorem C10_amended (m0 : List String) (wd : Option String) (bm0 : Option (List String)) :
    "website" ∈ (computeStartupModules m0 wd bm0 true).1 ∧
    brandTheme ∈ (computeStartupModules m0 wd bm0 true).1 := by
  unfold computeStartupModules
  simp only [if_true]
  constructor
  · exact mem_brandingMergeStep _ (mem_websiteDesignStep _ (website_mem_brandAdjust m0))
  · exact brandTheme_mem_brandingMergeStep (brandTheme_mem_brandAdjustBranding bm0)

/-- C9: the project-path resolver accepts `../webnexagent-data/secret.css`
under root `/home/user/webnexagent` because the sibling directory shares
the root as a string prefix; the CSS-inject endpoint would therefore
write outside the project root, contradicting the resolver's documented
containment guarantee. -/
theorem C9_path_escape :
    resolveProjectPath "/home/user/webnexagent" "../webnexagent-data/secret.css" =
      Except.ok "/home/user/webnexagent-data/secret.css" ∧
    ¬ withinRoot "/home/user/webnexagent" "/home/user/webnexagent-data/secret.css" ∧
    websiteHelperInjectTarget "/home/user/webnexagent" "../webnexagent-data/secret.css" =
      Except.ok "/home/user/webnexagent-data/secret.css" := by
  refine ⟨rfl, by decide, rfl⟩

end WebNex
